import Mathlib

/-!
Verification of the task-lifecycle and subprocess-execution core of the
Claude Code Web API repository.

The development shallowly embeds the TypeScript sources:
  * `claude-executor.ts` (`ClaudeExecutor`: `executeTask`,
    `createExecutionContext`, `preparePrompt`, `executeClaude`,
    `processOutput`, `getTaskResult`),
  * `templates.ts` (`TASK_TEMPLATES`, `getTaskTemplate`),
  * `server.ts` (`ClaudeCodeWebAPI` routes: POST /tasks, GET /tasks/:id,
    DELETE /tasks/:id) and the development server's in-memory task map.

Modelling conventions:
  * JavaScript `JSON.parse` / `JSON.stringify` are embedded by an executable
    JSON value type (`Json`) with a line parser and a serializer; JSON
    numbers are kept as their source lexemes (strings), so no floating
    point arithmetic is modelled (none of the code computes with them —
    they are only copied between records).
  * The filesystem is a value (`FS`): an association list of file contents
    plus a list of existing directories.  `fs/promises` calls become pure
    lookups/updates.
  * One subprocess run is abstracted by `ProcBehavior`: its exit code, the
    wall-clock time it would need, its stdout and stderr, and whether the
    `error` event fired.  The `Promise.race` of process exit against the
    timeout timer becomes a comparison of that running time with the
    configured timeout.
  * Side effects are recorded as an event trace (`Ev`): directory creation,
    file writes, process spawn, the SIGTERM kill of the timeout handler and
    the moment the captured stdout is handed to the output interpreter.
    The filesystem after a run is the fold of the trace's writes.
  * Wall-clock instants (`Date.now()`, file stat times) are naturals
    (milliseconds); ISO-string formatting of dates is not modelled.
-/

namespace CCP

/-! ## JSON values (the shape produced by `JSON.parse`) -/

/-- A JSON value.  Numbers keep their textual lexeme; `JSON.parse` with
duplicate keys keeps the last binding, which `getField` mirrors. -/
inductive Json where
  | null
  | bool (b : Bool)
  | num (lex : String)
  | str (s : String)
  | arr (elems : List Json)
  | obj (fields : List (String × Json))

/-- Last-binding-wins field lookup on parsed objects (JS object semantics
after `JSON.parse`); any access on a non-object is `undefined` (`none`). -/
def lookupLastField : List (String × Json) → String → Option Json
  | [], _ => none
  | (k, v) :: rest, key =>
    match lookupLastField rest key with
    | some r => some r
    | none => if k = key then some v else none

def Json.getField : Json → String → Option Json
  | .obj fs, key => lookupLastField fs key
  | _, _ => none

/-- JS truthiness of a parsed JSON value (`undefined` is handled at the
`Option` layer).  A numeric lexeme is falsy exactly when it denotes zero. -/
def numLexIsZero (lex : String) : Bool :=
  let noSign := match lex.data with
    | '-' :: rest => rest
    | cs => cs
  let mantissa := noSign.takeWhile (fun c => c ≠ 'e' ∧ c ≠ 'E')
  mantissa.all (fun c => c = '0' ∨ c = '.')

def jsTruthy : Json → Bool
  | .null => false
  | .bool b => b
  | .num lex => ¬ numLexIsZero lex
  | .str s => s ≠ ""
  | .arr _ => true
  | .obj _ => true

/-- `a || b` on a possibly-`undefined` JS value `a`. -/
def jsOrU (a : Option Json) (b : Json) : Json :=
  match a with
  | some v => if jsTruthy v then v else b
  | none => b

/-- JS `.length` property access: defined for arrays and strings,
`undefined` otherwise. -/
def jsLength : Json → Option Json
  | .arr xs => some (.num (toString xs.length))
  | .str s => some (.num (toString s.length))
  | _ => none

/-! ## A line-level JSON parser (the model of `JSON.parse`) -/

def isJsonWs (c : Char) : Bool := c = ' ' ∨ c = '\t' ∨ c = '\n' ∨ c = '\r'

def skipWs (cs : List Char) : List Char := cs.dropWhile isJsonWs

def isDigitCh (c : Char) : Bool := '0' ≤ c ∧ c ≤ '9'

def hexVal (c : Char) : Option Nat :=
  if '0' ≤ c ∧ c ≤ '9' then some (c.toNat - '0'.toNat)
  else if 'a' ≤ c ∧ c ≤ 'f' then some (c.toNat - 'a'.toNat + 10)
  else if 'A' ≤ c ∧ c ≤ 'F' then some (c.toNat - 'A'.toNat + 10)
  else none

/-- Body of a JSON string after the opening quote: returns the decoded
characters and the remaining input. -/
def parseStrChars : Nat → List Char → Option (List Char × List Char)
  | 0, _ => none
  | _, [] => none
  | fuel + 1, c :: rest =>
    if c = '"' then some ([], rest)
    else if c = '\\' then
      match rest with
      | [] => none
      | e :: rest2 =>
        let step : Option (Char × List Char) :=
          if e = '"' then some ('"', rest2)
          else if e = '\\' then some ('\\', rest2)
          else if e = '/' then some ('/', rest2)
          else if e = 'b' then some ('\x08', rest2)
          else if e = 'f' then some ('\x0c', rest2)
          else if e = 'n' then some ('\n', rest2)
          else if e = 'r' then some ('\r', rest2)
          else if e = 't' then some ('\t', rest2)
          else if e = 'u' then
            match rest2 with
            | h1 :: h2 :: h3 :: h4 :: rest3 =>
              match hexVal h1, hexVal h2, hexVal h3, hexVal h4 with
              | some a, some b, some c3, some d =>
                some (Char.ofNat (((a * 16 + b) * 16 + c3) * 16 + d), rest3)
              | _, _, _, _ => none
            | _ => none
          else none
        match step with
        | some (ch, rest3) =>
          (parseStrChars fuel rest3).map (fun p => (ch :: p.1, p.2))
        | none => none
    else if c.toNat < 32 then none
    else (parseStrChars fuel rest).map (fun p => (c :: p.1, p.2))

/-- Integer part of a JSON number: `0`, or a nonzero digit followed by
digits. -/
def parseIntPart : List Char → Option (List Char × List Char)
  | [] => none
  | '0' :: rest => some (['0'], rest)
  | c :: rest =>
    if isDigitCh c then
      some (c :: rest.takeWhile isDigitCh, rest.dropWhile isDigitCh)
    else none

def parseFracPart : List Char → Option (List Char × List Char)
  | '.' :: rest =>
    let ds := rest.takeWhile isDigitCh
    if ds = [] then none else some ('.' :: ds, rest.dropWhile isDigitCh)
  | cs => some ([], cs)

def parseExpPart : List Char → Option (List Char × List Char)
  | [] => some ([], [])
  | c :: rest =>
    if c = 'e' ∨ c = 'E' then
      let (sgn, r2) := match rest with
        | '+' :: r => (['+'], r)
        | '-' :: r => (['-'], r)
        | _ => (([] : List Char), rest)
      let ds := r2.takeWhile isDigitCh
      if ds = [] then none
      else some (c :: (sgn ++ ds), r2.dropWhile isDigitCh)
    else some ([], c :: rest)

/-- A JSON number lexeme (kept verbatim). -/
def parseNumLex (cs : List Char) : Option (List Char × List Char) :=
  let (sgn, cs1) := match cs with
    | '-' :: rest => ((['-'] : List Char), rest)
    | _ => (([] : List Char), cs)
  match parseIntPart cs1 with
  | none => none
  | some (ip, r1) =>
    match parseFracPart r1 with
    | none => none
    | some (fp, r2) =>
      match parseExpPart r2 with
      | none => none
      | some (ep, r3) => some (sgn ++ ip ++ fp ++ ep, r3)

mutual

/-- One JSON value, fuel-indexed (the fuel only bounds nesting and element
counts; callers supply ample fuel). -/
def parseValue : Nat → List Char → Option (Json × List Char)
  | 0, _ => none
  | fuel + 1, cs =>
    match skipWs cs with
    | [] => none
    | c :: rest =>
      if c = 'n' then
        match rest with
        | 'u' :: 'l' :: 'l' :: r => some (.null, r)
        | _ => none
      else if c = 't' then
        match rest with
        | 'r' :: 'u' :: 'e' :: r => some (.bool true, r)
        | _ => none
      else if c = 'f' then
        match rest with
        | 'a' :: 'l' :: 's' :: 'e' :: r => some (.bool false, r)
        | _ => none
      else if c = '"' then
        (parseStrChars (rest.length + 1) rest).map
          (fun p => (.str (String.mk p.1), p.2))
      else if c = '[' then
        match skipWs rest with
        | ']' :: r => some (.arr [], r)
        | _ => parseElems fuel rest []
      else if c = '\x7b' then
        match skipWs rest with
        | '\x7d' :: r => some (.obj [], r)
        | _ => parseFields fuel rest []
      else
        (parseNumLex (c :: rest)).map (fun p => (.num (String.mk p.1), p.2))

def parseElems : Nat → List Char → List Json → Option (Json × List Char)
  | 0, _, _ => none
  | fuel + 1, cs, acc =>
    match parseValue fuel cs with
    | none => none
    | some (v, rest) =>
      match skipWs rest with
      | ',' :: r => parseElems fuel r (acc ++ [v])
      | ']' :: r => some (.arr (acc ++ [v]), r)
      | _ => none

def parseFields : Nat → List Char → List (String × Json) →
    Option (Json × List Char)
  | 0, _, _ => none
  | fuel + 1, cs, acc =>
    match skipWs cs with
    | '"' :: rest =>
      match parseStrChars (rest.length + 1) rest with
      | none => none
      | some (key, r1) =>
        match skipWs r1 with
        | ':' :: r2 =>
          match parseValue fuel r2 with
          | none => none
          | some (v, r3) =>
            match skipWs r3 with
            | ',' :: r4 => parseFields fuel r4 (acc ++ [(String.mk key, v)])
            | '\x7d' :: r4 => some (.obj (acc ++ [(String.mk key, v)]), r4)
            | _ => none
        | _ => none
    | _ => none

end

/-- `JSON.parse` on one text: the whole input (up to surrounding
whitespace) must be consumed. -/
def jsonParseChars (cs : List Char) : Option Json :=
  match parseValue (2 * cs.length + 8) cs with
  | some (v, rest) => if skipWs rest = [] then some v else none
  | none => none

def jsonParse (s : String) : Option Json := jsonParseChars s.data

/-! ## JSON serialization (the model of `JSON.stringify`; indentation of
`JSON.stringify(x, null, 2)` is not reproduced — only a valid JSON text) -/

def quoteOneChar (c : Char) : List Char :=
  if c = '"' then ['\\', '"']
  else if c = '\\' then ['\\', '\\']
  else if c = '\n' then ['\\', 'n']
  else if c = '\r' then ['\\', 'r']
  else if c = '\t' then ['\\', 't']
  else [c]

def quoteStr (s : String) : String :=
  "\"" ++ String.mk (s.data.foldr (fun c acc => quoteOneChar c ++ acc) []) ++ "\""

mutual

def serializeJson : Json → String
  | .null => "null"
  | .bool b => if b then "true" else "false"
  | .num lex => lex
  | .str s => quoteStr s
  | .arr xs => "[" ++ serializeList xs ++ "]"
  | .obj fs => "\x7b" ++ serializeFields fs ++ "\x7d"

def serializeList : List Json → String
  | [] => ""
  | [x] => serializeJson x
  | x :: xs => serializeJson x ++ "," ++ serializeList xs

def serializeFields : List (String × Json) → String
  | [] => ""
  | [(k, v)] => quoteStr k ++ ":" ++ serializeJson v
  | (k, v) :: fs => quoteStr k ++ ":" ++ serializeJson v ++ "," ++ serializeFields fs

end

/-! ## JS string primitives used by the executor -/

/-- JS `String.prototype.trim` (on char lists). -/
def jsTrim (cs : List Char) : List Char :=
  ((cs.dropWhile isJsonWs).reverse.dropWhile isJsonWs).reverse

/-- JS `String.prototype.split("\n")`. -/
def splitNl : List Char → List (List Char)
  | [] => [[]]
  | c :: rest =>
    match splitNl rest with
    | [] => [[]]
    | l :: ls => if c = '\n' then [] :: l :: ls else (c :: l) :: ls

def isPrefixList : List Char → List Char → Bool
  | [], _ => true
  | _ :: _, [] => false
  | a :: as, b :: bs => a = b && isPrefixList as bs

/-- JS `String.prototype.includes` (substring containment). -/
def containsSub (needle : List Char) : List Char → Bool
  | [] => isPrefixList needle []
  | c :: rest => isPrefixList needle (c :: rest) || containsSub needle rest

/-- V8's `TypeError` message for the property access `m.type` on `null`
(a bare `null` line is valid JSON, so `JSON.parse` pushes `null` into the
message list and the `findLast` callback then throws). -/
def nullTypeError : String := "Cannot read properties of null (reading 'type')"

/-! ## Output interpreter (`ClaudeExecutor.processOutput`, parsing part;
the same loop is duplicated verbatim inside `getTaskResult`) -/

/-- One line of the loop body: skipped when blank after trimming, else the
result of `JSON.parse` (failures are silently discarded). -/
def lineDecode (line : List Char) : Option Json :=
  if jsTrim line = [] then none else jsonParseChars line

/-- `output.trim().split("\n")` followed by the per-line decode loop. -/
def decodeLines (output : String) : List Json :=
  (splitNl (jsTrim output.data)).filterMap lineDecode

/-- `m.type === "result"` for values on which the property access
succeeds (objects read the field; other non-null values auto-box and
yield `undefined`, so the comparison is false). -/
def isResultTagged (j : Json) : Bool :=
  match j.getField "type" with
  | some (.str t) => t = "result"
  | _ => false

/-- The `findLast` callback `(m) => m.type === "result"` as JS evaluates
it: property access on `null` throws a `TypeError`. -/
def isResultTaggedE : Json → Except String Bool
  | .null => .error nullTypeError
  | j => .ok (isResultTagged j)

/-- `messages.findLast((m) => m.type === "result")`: the scan starts at
the LAST element; a callback throw (a decoded `null`) aborts the whole
scan, and elements before a found result are never inspected. -/
def jsFindLastResult : List Json → Except String (Option Json)
  | [] => .ok none
  | m :: rest =>
    match jsFindLastResult rest with
    | .error e => .error e
    | .ok (some r) => .ok (some r)
    | .ok none =>
      match isResultTaggedE m with
      | .error e => .error e
      | .ok true => .ok (some m)
      | .ok false => .ok none

/-- The pure part of `processOutput` after the raw output has been saved:
select the last result-tagged message, or throw — with the `TypeError`
of a `null`-line scan propagating as the failure. -/
def processOutputPure (output : String) : Except String Json :=
  match jsFindLastResult (decodeLines output) with
  | .error e => .error e
  | .ok (some r) => .ok r
  | .ok none =>
    if containsSub "Error:".data output.data then
      .error ("Claude execution error: " ++ output)
    else
      .error "No result message found in Claude output"

/-! ## Task templates (`templates.ts`), restricted to the fields the
executor reads (`defaultPrompt`, `allowedTools`, `recommendedMaxTurns`) -/

structure TaskTemplate where
  id : String
  defaultPrompt : String
  allowedTools : String
  recommendedMaxTurns : Nat

def TASK_TEMPLATES : List (String × TaskTemplate) :=
  [ ("code-review",
     { id := "code-review"
       defaultPrompt := "Please review the code in this repository. Focus on:\n1. Code quality and maintainability\n2. Security vulnerabilities\n3. Performance issues\n4. Adherence to best practices\n5. Testing coverage\n\nProvide specific recommendations and prioritized action items."
       allowedTools := "Read,Grep,Edit,Write,Bash"
       recommendedMaxTurns := 15 }),
    ("bug-fix",
     { id := "bug-fix"
       defaultPrompt := "Please help fix the reported bug. Follow this process:\n1. Analyze the bug report and reproduce the issue\n2. Identify the root cause\n3. Implement a minimal fix\n4. Add tests to prevent regression\n5. Verify the fix works\n\nExplain your approach and provide the fix."
       allowedTools := "Read,Grep,Edit,Write,Bash"
       recommendedMaxTurns := 12 }),
    ("feature-implementation",
     { id := "feature-implementation"
       defaultPrompt := "Please implement the requested feature following these guidelines:\n1. Follow the existing codebase patterns and conventions\n2. Write clean, maintainable code with proper error handling\n3. Include appropriate tests\n4. Update documentation as needed\n5. Consider edge cases and performance\n\nImplement the feature step by step and explain your decisions."
       allowedTools := "Read,Grep,Edit,Write,Bash,Glob,WebSearch"
       recommendedMaxTurns := 20 }),
    ("documentation",
     { id := "documentation"
       defaultPrompt := "Please generate comprehensive documentation for this codebase. Include:\n1. Overview and architecture\n2. API documentation\n3. Setup and installation instructions\n4. Usage examples\n5. Contributing guidelines\n\nMake the documentation clear, accurate, and well-structured."
       allowedTools := "Read,Grep,Write,Edit,Glob,WebSearch"
       recommendedMaxTurns := 10 }),
    ("performance-analysis",
     { id := "performance-analysis"
       defaultPrompt := "Please analyze the codebase for performance issues and provide optimization recommendations. Focus on:\n1. Database query efficiency\n2. Algorithmic complexity\n3. Memory usage\n4. Network requests\n5. Rendering performance (if applicable)\n\nProvide specific, actionable optimization suggestions."
       allowedTools := "Read,Grep,Edit,Write,Bash,WebSearch"
       recommendedMaxTurns := 15 }),
    ("security-audit",
     { id := "security-audit"
       defaultPrompt := "Please perform a comprehensive security audit of this codebase. Check for:\n1. OWASP Top 10 vulnerabilities\n2. Authentication and authorization issues\n3. Input validation and sanitization\n4. Sensitive data exposure\n5. Dependency vulnerabilities\n6. Configuration security\n\nProvide detailed findings and remediation steps."
       allowedTools := "Read,Grep,Edit,Write,Bash,WebSearch"
       recommendedMaxTurns := 18 }),
    ("custom",
     { id := "custom"
       defaultPrompt := ""
       allowedTools := "Read,Grep,Edit,Write,Bash,WebSearch"
       recommendedMaxTurns := 20 }) ]

def lookupKey : List (String × α) → String → Option α
  | [], _ => none
  | (k, v) :: rest, key => if k = key then some v else lookupKey rest key

/-- `TASK_TEMPLATES[taskType] || null`. -/
def getTaskTemplate (taskType : String) : Option TaskTemplate :=
  lookupKey TASK_TEMPLATES taskType

/-! ## Data model (`types.ts`), restricted to fields observable by the
modelled code paths (fields that are only copied into the CLI argument
vector are omitted) -/

/-- A validated Task Request (`TaskRequestSchema`); `timeoutSeconds` has a
schema default of 300 and is therefore always present after validation. -/
structure TaskRequest where
  taskType : String
  prompt : Option String := none
  promptFile : Option String := none
  maxTurns : Option Nat := none
  allowedTools : Option String := none
  timeoutSeconds : Nat := 300
  metadata : Option Json := none
  repoUrl : Option String := none

structure ExecutionMetrics where
  durationMs : Option Json
  numTurns : Option Json
  totalCostUsd : Option Json
  permissionDenials : Option Json

/-- The externally visible task record.  `status` is one of the string
literals `"pending" | "running" | "completed" | "failed" | "timeout"`;
timestamps are wall-clock milliseconds (ISO formatting not modelled). -/
structure TaskResponse where
  taskId : String
  status : String
  result : Option Json := none
  error : Option String := none
  executionMetrics : Option ExecutionMetrics := none
  createdAt : Nat
  startedAt : Option Nat := none
  completedAt : Option Nat := none
  metadata : Option Json := none

/-! ## Filesystem and effect traces -/

structure FS where
  files : List (String × String)
  dirs : List String

def setEntry : List (String × α) → String → α → List (String × α)
  | [], key, v => [(key, v)]
  | (k, w) :: rest, key, v =>
    if k = key then (k, v) :: rest else (k, w) :: setEntry rest key v

def removeKey : List (String × α) → String → List (String × α)
  | [], _ => []
  | (k, v) :: rest, key => if k = key then rest else (k, v) :: removeKey rest key

def lookupFile (fs : FS) (path : String) : Option String :=
  lookupKey fs.files path

def dirExists (fs : FS) (path : String) : Bool := fs.dirs.contains path

def joinPath (a b : String) : String := a ++ "/" ++ b

/-- Observable side effects of one task execution, in program order. -/
inductive Ev where
  | mkdirEv (path : String)
  | writeFileEv (path : String) (content : String)
  | spawnEv
  | killEv (signal : String)
  | interpretEv (content : String)
deriving DecidableEq

def applyEv (fs : FS) : Ev → FS
  | .mkdirEv p => { fs with dirs := p :: fs.dirs }
  | .writeFileEv p c => { fs with files := setEntry fs.files p c }
  | _ => fs

def applyEvents (fs : FS) (evs : List Ev) : FS := evs.foldl applyEv fs

/-! ## Execution environment: the abstraction of one subprocess run and of
the external collaborators (filesystem, GitHub service, clock) -/

/-- What the spawned CLI process would do if left alone. -/
structure ProcBehavior where
  exitCode : Int := 0
  runtimeMs : Nat := 0
  stdout : String := ""
  stderr : String := ""
  spawnError : Bool := false

structure Env where
  fs : FS
  behavior : ProcBehavior
  branchCreateOk : Bool := true
  downloadOk : Bool := true
  downloadErrMsg : String := ""
  startTime : Nat := 0
  completionTime : Nat := 0

/-! ## `ClaudeExecutor.createExecutionContext` -/

def jsFalsyStr (o : Option String) : Bool := o.getD "" = ""

def jsFalsyNat (o : Option Nat) : Bool := o.getD 0 = 0

/-- Default resolution for `allowedTools` / `maxTurns` from the category
template, with the fixed built-in fallbacks. -/
def resolveDefaults (req : TaskRequest) : TaskRequest :=
  if jsFalsyStr req.allowedTools ∨ jsFalsyNat req.maxTurns then
    let template := getTaskTemplate req.taskType
    let req1 :=
      if jsFalsyStr req.allowedTools then
        match template with
        | some t =>
          if t.allowedTools ≠ "" then { req with allowedTools := some t.allowedTools }
          else { req with allowedTools := some "Edit,Read,Bash,Write,Grep,WebSearch" }
        | none => { req with allowedTools := some "Edit,Read,Bash,Write,Grep,WebSearch" }
      else req
    if jsFalsyNat req1.maxTurns then
      match template with
      | some t =>
        if t.recommendedMaxTurns ≠ 0 then { req1 with maxTurns := some t.recommendedMaxTurns }
        else { req1 with maxTurns := some 30 }
      | none => { req1 with maxTurns := some 30 }
    else req1
  else req

/-- `JSON.stringify(request, null, 2)`, with fields in declaration order
and absent (`undefined`) fields omitted. -/
def requestToJson (req : TaskRequest) : Json :=
  .obj ([("taskType", Json.str req.taskType)]
    ++ (match req.prompt with
        | some p => [("prompt", Json.str p)]
        | none => [])
    ++ (match req.promptFile with
        | some p => [("promptFile", Json.str p)]
        | none => [])
    ++ (match req.maxTurns with
        | some n => [("maxTurns", Json.num (toString n))]
        | none => [])
    ++ (match req.allowedTools with
        | some t => [("allowedTools", Json.str t)]
        | none => [])
    ++ [("timeoutSeconds", Json.num (toString req.timeoutSeconds))]
    ++ (match req.metadata with
        | some m => [("metadata", m)]
        | none => [])
    ++ (match req.repoUrl with
        | some u => [("repoUrl", Json.str u)]
        | none => []))

/-- Repository materialization: a failed branch creation only changes the
branch name (warn-and-fall-back to `main`); a failed download is fatal.
The downloaded tree's files are not tracked (no modelled path reads them). -/
def repoStep (taskDir taskId : String) (req : TaskRequest) (env : Env) :
    Except String (Option String) :=
  match req.repoUrl with
  | none => .ok none
  | some _ =>
    let _branchName := if env.branchCreateOk then "hotfix-" ++ taskId else "main"
    if env.downloadOk then .ok (some (joinPath taskDir "repo"))
    else .error ("Failed to setup repository: " ++ env.downloadErrMsg)

/-! ## `ClaudeExecutor.preparePrompt` -/

/-- First phase of `preparePrompt`: start from the inline prompt, and fall
back to the template default only when both the inline prompt and the
prompt file are absent. -/
def promptStep1 (req : TaskRequest) : Except String String :=
  if req.prompt.getD "" = "" ∧ jsFalsyStr req.promptFile then
    match getTaskTemplate req.taskType with
    | some t => .ok t.defaultPrompt
    | none =>
      .error ("No prompt provided and no template found for task type: " ++ req.taskType)
  else .ok (req.prompt.getD "")

/-- Second phase of `preparePrompt`: `if (request.promptFile)` is a JS
truthiness gate, so an empty-string `promptFile` skips the file branch
entirely; a truthy prompt file must exist and be non-empty, and its
content overrides whatever was resolved so far. -/
def promptStep2 (fs : FS) (req : TaskRequest) (pc1 : String) : Except String String :=
  match req.promptFile with
  | some pf =>
    if pf = "" then .ok pc1
    else
      match lookupFile fs pf with
      | none => .error ("Prompt file '" ++ pf ++ "' does not exist")
      | some content =>
        if content = "" then .error "Prompt file is empty"
        else .ok content
  | none => .ok pc1

/-- Prompt resolution exactly as in the source: inline prompt, template
default only when both inline prompt and prompt file are absent, then the
prompt-file branch which overrides whatever was resolved so far; finally
the emptiness check.  On success, returns the effective prompt content
together with the `prompt.txt` write. -/
def preparePrompt (fs : FS) (promptPath : String) (req : TaskRequest) :
    Except String (String × List Ev) :=
  match promptStep1 req with
  | .error e => .error e
  | .ok pc1 =>
    match promptStep2 fs req pc1 with
    | .error e => .error e
    | .ok pc2 =>
      if pc2 = "" ∨ jsTrim pc2.data = [] then
        .error "Prompt is empty. Please provide a non-empty prompt."
      else .ok (pc2, [.writeFileEv promptPath pc2])

/-! ## `ClaudeExecutor.executeClaude` and `processOutput` -/

/-- Subprocess execution with the timeout race.  The timer fires when the
process would outlive `timeoutSeconds * 1000` ms: it SIGTERM-kills the
process and the execution rejects.  Otherwise a non-zero exit (or the
`error` event, which resolves the exit code to 1) rejects with the
captured stderr, and a clean exit saves the full stdout to the output
file and interprets it. -/
def executeClaude (promptPath outputFile : String) (fs : FS) (req : TaskRequest)
    (beh : ProcBehavior) : Except String Json × List Ev :=
  let _promptContent := (lookupFile fs promptPath).getD ""
  let timeoutMs := req.timeoutSeconds * 1000
  if timeoutMs < beh.runtimeMs then
    (.error ("Claude execution timed out after " ++ toString req.timeoutSeconds ++ " seconds"),
     [.spawnEv, .killEv "SIGTERM"])
  else
    let exitCode : Int := if beh.spawnError then 1 else beh.exitCode
    if exitCode ≠ 0 then
      (.error ("Claude execution failed: " ++
         (if beh.stderr ≠ "" then beh.stderr
          else "Claude process exited with code " ++ toString exitCode)),
       [.spawnEv])
    else
      (processOutputPure beh.stdout,
       [.spawnEv, .writeFileEv outputFile beh.stdout, .interpretEv beh.stdout])

/-! ## `ClaudeExecutor.executeTask` -/

structure ExecOutcome where
  response : TaskResponse
  events : List Ev
  fs : FS

/-- The catch clause of `executeTask`: every thrown error becomes a
terminal `failed` record. -/
def failedResponse (taskId : String) (env : Env) (md : Option Json) (e : String) :
    TaskResponse :=
  { taskId, status := "failed", error := some e,
    createdAt := env.startTime, startedAt := some env.startTime,
    completedAt := some env.completionTime, metadata := md }

/-- The completed record: the whole result message is stored as `result`,
and `durationMs` is the wall-clock difference, while the other metrics are
copied from the result message with `|| 0` defaults. -/
def completedResponse (taskId : String) (env : Env) (md : Option Json) (j : Json) :
    TaskResponse :=
  { taskId, status := "completed", result := some j,
    executionMetrics := some
      { durationMs := some (.num (toString (env.completionTime - env.startTime)))
        numTurns := some (jsOrU (j.getField "num_turns") (.num "0"))
        totalCostUsd := some (jsOrU (j.getField "total_cost_usd") (.num "0"))
        permissionDenials := some (jsOrU (j.getField "permission_denials") (.num "0")) },
    createdAt := env.startTime, startedAt := some env.startTime,
    completedAt := some env.completionTime, metadata := md }

/-- The effects of `createExecutionContext` before the repository step:
task directory creation and persistence of the resolved request. -/
def contextEvents (tempDir taskId : String) (req : TaskRequest) : List Ev :=
  [.mkdirEv (joinPath tempDir taskId),
   .writeFileEv (joinPath (joinPath tempDir taskId) "request.json")
     (serializeJson (requestToJson req))]

/-- `executeTask`: context creation (task dir, default resolution, request
persistence, optional repository), prompt preparation, subprocess run,
result assembly; every failure settles as a `failed` response. -/
def executeTask (tempDir taskId : String) (req0 : TaskRequest) (env : Env) : ExecOutcome :=
  let taskDir := joinPath tempDir taskId
  let req := resolveDefaults req0
  let promptPath := joinPath taskDir "prompt.txt"
  let outputFile := joinPath taskDir "output.json"
  let ev0 : List Ev := contextEvents tempDir taskId req
  match repoStep taskDir taskId req env with
  | .error e =>
    { response := failedResponse taskId env req.metadata e,
      events := ev0, fs := applyEvents env.fs ev0 }
  | .ok _workingDir =>
    match preparePrompt (applyEvents env.fs ev0) promptPath req with
    | .error e =>
      { response := failedResponse taskId env req.metadata e,
        events := ev0, fs := applyEvents env.fs ev0 }
    | .ok (_content, ev1) =>
      let fs1 := applyEvents env.fs (ev0 ++ ev1)
      let run := executeClaude promptPath outputFile fs1 req env.behavior
      let evAll := ev0 ++ ev1 ++ run.2
      match run.1 with
      | .ok j =>
        { response := completedResponse taskId env req.metadata j,
          events := evAll, fs := applyEvents env.fs evAll }
      | .error e =>
        { response := failedResponse taskId env req.metadata e,
          events := evAll, fs := applyEvents env.fs evAll }

/-! ## `ClaudeExecutor.getTaskResult`: reconstruction from disk -/

/-- Rebuild a terminal Task Response from the persisted artifacts.
`birthTime`/`mtime` are the output file's stat times, `nowTime` is the
clock used when the output file is missing. -/
def getTaskResult (tempDir taskId : String) (fs : FS)
    (birthTime mtime nowTime : Nat) : Option TaskResponse :=
  let taskDir := joinPath tempDir taskId
  let requestPath := joinPath taskDir "request.json"
  let outputPath := joinPath taskDir "output.json"
  if ¬ dirExists fs taskDir then none
  else
    let requestJson := (lookupFile fs requestPath).bind jsonParse
    let metadata := requestJson.bind (fun j => j.getField "metadata")
    match lookupFile fs outputPath with
    | none =>
      some { taskId, status := "failed", error := some "Task output not found",
             createdAt := nowTime, metadata }
    | some outputContent =>
      match jsFindLastResult (decodeLines outputContent) with
      | .error _ =>
        -- a `TypeError` thrown inside `findLast` lands in the surrounding
        -- try/catch, which blames the output file
        some { taskId, status := "failed", error := some "Task output not found",
               createdAt := nowTime, metadata }
      | .ok (some result) =>
        some { taskId, status := "completed",
               result := result.getField "result",
               executionMetrics := some
                 { durationMs := some (jsOrU (result.getField "duration_ms") (.num "0"))
                   numTurns := some (jsOrU (result.getField "num_turns") (.num "0"))
                   totalCostUsd := some (jsOrU (result.getField "total_cost_usd") (.num "0"))
                   permissionDenials :=
                     jsLength (jsOrU (result.getField "permission_denials") (.arr [])) },
               createdAt := birthTime, startedAt := some birthTime,
               completedAt := some mtime, metadata }
      | .ok none =>
        some { taskId, status := "failed",
               error := some "Task completed but no result found in output",
               createdAt := birthTime, metadata }

/-! ## HTTP surface: `ClaudeCodeWebAPI` routes and the development server -/

inductive PostOutcome where
  | accepted (resp : TaskResponse)
  | limitReached (current maxTasks : Nat)

inductive GetOutcome where
  | ok (resp : TaskResponse)
  | notFound (taskId : String)

def GetOutcome.isNotFound : GetOutcome → Bool
  | .ok _ => false
  | .notFound _ => true

inductive CancelOutcome where
  | cancelled (taskId : String)
  | notFound (taskId : String)

/-- The in-flight index: each stored promise is modelled by the value it
eventually fulfills with (`executeTaskAsync` never rejects, its catch
clause converts executor rejections into `failed` records). -/
structure WebState where
  runningTasks : List (String × TaskResponse)
  maxConcurrentTasks : Nat
  tempDir : String
  fs : FS

def executeTaskAsync (tempDir taskId : String) (req : TaskRequest) (env : Env) :
    TaskResponse :=
  (executeTask tempDir taskId req env).response

/-- POST /tasks: admission check against the ceiling, then store the task
promise and answer 202 with the initial pending record. -/
def postTask (st : WebState) (taskId : String) (req : TaskRequest) (env : Env)
    (now : Nat) : PostOutcome × WebState :=
  if st.maxConcurrentTasks ≤ st.runningTasks.length then
    (.limitReached st.runningTasks.length st.maxConcurrentTasks, st)
  else
    let initial : TaskResponse :=
      { taskId, status := "pending", createdAt := now, metadata := req.metadata }
    let eventual := executeTaskAsync st.tempDir taskId req env
    (.accepted initial, { st with runningTasks := setEntry st.runningTasks taskId eventual })

/-- The `taskPromise.finally` callback: evict the settled task. -/
def settleTask (st : WebState) (taskId : String) : WebState :=
  { st with runningTasks := removeKey st.runningTasks taskId }

/-- GET /tasks/:taskId: a tracked task is answered by `await taskPromise`
(the handler responds only after settlement, with the settled record); an
untracked one falls back to the on-disk reconstruction, else 404. -/
def webGetTask (st : WebState) (taskId : String) (birthTime mtime nowTime : Nat) :
    GetOutcome :=
  match lookupKey st.runningTasks taskId with
  | some eventual => .ok eventual
  | none =>
    match getTaskResult st.tempDir taskId st.fs birthTime mtime nowTime with
    | some r => .ok r
    | none => .notFound taskId

/-- DELETE /tasks/:taskId: bookkeeping-only cancellation, removing the
entry from the in-flight index. -/
def cancelTask (st : WebState) (taskId : String) : CancelOutcome × WebState :=
  match lookupKey st.runningTasks taskId with
  | none => (.notFound taskId, st)
  | some _ => (.cancelled taskId, { st with runningTasks := removeKey st.runningTasks taskId })

/-- Development server POST /tasks: the in-memory map immediately stores
the pending record (settlement later overwrites it). -/
def devPostTask (tasks : List (String × TaskResponse)) (taskId : String)
    (req : TaskRequest) (now : Nat) : TaskResponse × List (String × TaskResponse) :=
  let initial : TaskResponse :=
    { taskId, status := "pending", createdAt := now, metadata := req.metadata }
  (initial, setEntry tasks taskId initial)

/-- Development server GET /tasks/:taskId: plain map lookup. -/
def devGetTask (tasks : List (String × TaskResponse)) (taskId : String) : GetOutcome :=
  match lookupKey tasks taskId with
  | some t => .ok t
  | none => .notFound taskId

/-- Status projection of a GET response. -/
def getStatus : GetOutcome → Option String
  | .ok r => some r.status
  | .notFound _ => none

/-- The decoded-line view of the interpreter: what `processOutput` selects
from a given list of raw lines. -/
def interpretLines (ls : List (List Char)) : Except String (Option Json) :=
  jsFindLastResult (ls.filterMap lineDecode)

/-! ## Concrete instances used to evaluate the model -/

def emptyFS : FS := { files := [], dirs := [] }

/-- A terminal result line as the CLI emits it (stream-json). -/
def resultLine : String :=
  "\x7b\"type\":\"result\",\"result\":\"10\",\"num_turns\":1,\"duration_ms\":999,\"total_cost_usd\":0.001\x7d"

def cxReqTimeout : TaskRequest := { taskType := "custom", prompt := some "p", timeoutSeconds := 1 }

def cxEnvTimeout : Env := { fs := emptyFS, behavior := { runtimeMs := 2000 } }

def wReqTimeout : TaskRequest := { taskType := "custom", prompt := some "q", timeoutSeconds := 2 }

def wEnvTimeout : Env := { fs := emptyFS, behavior := { runtimeMs := 5000 } }

def cxReqRoundtrip : TaskRequest := { taskType := "custom", prompt := some "add" }

def cxEnvRoundtrip : Env :=
  { fs := emptyFS, behavior := { stdout := resultLine },
    startTime := 1000, completionTime := 6000 }

def cxFsPrompt : FS := { files := [("pf", "B")], dirs := [] }

def cxReqPrompt : TaskRequest :=
  { taskType := "custom", prompt := some "A", promptFile := some "pf" }

def cxReqNonzero : TaskRequest := { taskType := "custom", prompt := some "x" }

def cxEnvNonzero : Env :=
  { fs := emptyFS, behavior := { exitCode := 3, stdout := "partial diagnostics" } }

def cxStEmpty : WebState :=
  { runningTasks := [], maxConcurrentTasks := 5, tempDir := "temp", fs := emptyFS }

def cxReqPending : TaskRequest := { taskType := "custom" }

def cxEnvPending : Env := { fs := emptyFS, behavior := {} }

def wRespA : TaskResponse := { taskId := "a", status := "completed", createdAt := 0 }

def wStFull : WebState :=
  { runningTasks := [("a", wRespA)], maxConcurrentTasks := 1, tempDir := "temp", fs := emptyFS }

def wReqAny : TaskRequest := { taskType := "custom" }

def wEnvAny : Env := { fs := emptyFS, behavior := {} }

def wRespT : TaskResponse := { taskId := "t", status := "failed", createdAt := 0 }

def wStTracked : WebState :=
  { runningTasks := [("t", wRespT)], maxConcurrentTasks := 5, tempDir := "temp",
    fs := { files := [], dirs := ["temp/t"] } }

def wStRoom : WebState :=
  { runningTasks := [], maxConcurrentTasks := 3, tempDir := "temp", fs := emptyFS }

/-- Parsed form of `resultLine`. -/
def wResultJson : Json :=
  Json.obj [("type", .str "result"), ("result", .str "10"), ("num_turns", .num "1"),
    ("duration_ms", .num "999"), ("total_cost_usd", .num "0.001")]

/-- A noisy capture: banner text and a non-result event around the result. -/
def wNoisyOut : String :=
  "starting up\n\x7b\"type\":\"system\"\x7d\nnot json\n" ++ resultLine ++ "\n"

def wReqNoRes : TaskRequest := { taskType := "custom", prompt := some "y" }

/-- A capture ending in a bare `null` line after a result line. -/
def cxNullOut : String := resultLine ++ "\nnull"

def wReqNull : TaskRequest := { taskType := "custom", prompt := some "z" }

def wEnvNull : Env := { fs := emptyFS, behavior := { stdout := "null" } }

def wEnvNoRes : Env := { fs := emptyFS, behavior := { stdout := "oops Error: exploded" } }

def wFsPrompt : FS := { files := [("wf", "W")], dirs := [] }

def wReqFilePrompt : TaskRequest :=
  { taskType := "custom", prompt := some "inline", promptFile := some "wf" }

def wReqInlinePrompt : TaskRequest := { taskType := "bug-fix", prompt := some "fix it" }

def wReqEmptyPrompt : TaskRequest := { taskType := "custom" }

def wReqEmptyFilePrompt : TaskRequest :=
  { taskType := "custom", prompt := some "inline2", promptFile := some "" }

def wEnvPlain : Env := { fs := emptyFS, behavior := {} }

/-! # Helper lemmas -/

theorem lookupKey_setEntry (l : List (String × α)) (k k' : String) (v : α) :
    lookupKey (setEntry l k v) k' = if k' = k then some v else lookupKey l k' := by
  induction l with
  | nil =>
    by_cases h : k' = k
    · subst h; simp [setEntry, lookupKey]
    · have h' : ¬ k = k' := fun h2 => h h2.symm
      simp [setEntry, lookupKey, h, h']
  | cons hd tl ih =>
    obtain ⟨k0, v0⟩ := hd
    by_cases h0 : k0 = k
    · subst h0
      have hs : setEntry ((k0, v0) :: tl) k0 v = (k0, v) :: tl := by simp [setEntry]
      rw [hs]
      by_cases h : k' = k0
      · subst h; simp [lookupKey]
      · have h' : ¬ k0 = k' := fun h2 => h h2.symm
        simp [lookupKey, h, h']
    · have hs : setEntry ((k0, v0) :: tl) k v = (k0, v0) :: setEntry tl k v := by
        simp [setEntry, h0]
      rw [hs]
      by_cases h : k' = k0
      · subst h
        simp [lookupKey, h0]
      · have h' : ¬ k0 = k' := fun h2 => h h2.symm
        simp [lookupKey, h', h, ih]

theorem length_setEntry_le (l : List (String × α)) (k : String) (v : α) :
    (setEntry l k v).length ≤ l.length + 1 := by
  induction l with
  | nil => simp [setEntry]
  | cons hd tl ih =>
    obtain ⟨k0, v0⟩ := hd
    by_cases h : k0 = k
    · simp [setEntry, h]
    · simp only [setEntry, if_neg h, List.length_cons]
      omega

theorem length_removeKey_le (l : List (String × α)) (k : String) :
    (removeKey l k).length ≤ l.length := by
  induction l with
  | nil => simp [removeKey]
  | cons hd tl ih =>
    obtain ⟨k0, v0⟩ := hd
    by_cases h : k0 = k
    · simp only [removeKey, if_pos h, List.length_cons]
      omega
    · simp only [removeKey, if_neg h, List.length_cons]
      omega

theorem lookupKey_removeKey_ne (l : List (String × α)) (k k' : String) (h : k' ≠ k) :
    lookupKey (removeKey l k) k' = lookupKey l k' := by
  induction l with
  | nil => simp [removeKey]
  | cons hd tl ih =>
    obtain ⟨k0, v0⟩ := hd
    by_cases h0 : k0 = k
    · subst h0
      have h' : ¬ k0 = k' := fun h2 => h h2.symm
      simp [removeKey, lookupKey, h']
    · by_cases h1 : k0 = k'
      · subst h1
        simp [removeKey, lookupKey, h0]
      · simp [removeKey, lookupKey, h0, h1, ih]

theorem lookupKey_eq_none (l : List (String × α)) (k : String)
    (h : k ∉ l.map Prod.fst) : lookupKey l k = none := by
  induction l with
  | nil => rfl
  | cons hd tl ih =>
    obtain ⟨k0, v0⟩ := hd
    simp only [List.map_cons, List.mem_cons] at h
    push_neg at h
    have h' : ¬ k0 = k := fun h2 => h.1 h2.symm
    simp [lookupKey, h', ih h.2]

theorem lookupKey_removeKey_self (l : List (String × α)) (k : String)
    (hnd : (l.map Prod.fst).Nodup) : lookupKey (removeKey l k) k = none := by
  induction l with
  | nil => rfl
  | cons hd tl ih =>
    obtain ⟨k0, v0⟩ := hd
    simp only [List.map_cons, List.nodup_cons] at hnd
    by_cases h0 : k0 = k
    · subst h0
      simp only [removeKey, if_pos rfl]
      exact lookupKey_eq_none tl k0 hnd.1
    · simp [removeKey, lookupKey, h0, ih hnd.2]

theorem string_append_ne (s a b : String) (h : a ≠ b) :
    s ++ a ≠ s ++ b := by
  intro e
  apply h
  have hd := congrArg String.data e
  simp only [String.data_append] at hd
  have h2 : a.data = b.data := List.append_cancel_left hd
  cases a with
  | mk da =>
    cases b with
    | mk db => exact congrArg String.mk h2

theorem findLastResult_append (xs ys : List Json) :
    jsFindLastResult (xs ++ ys) =
      match jsFindLastResult ys with
      | .error e => .error e
      | .ok (some y) => .ok (some y)
      | .ok none => jsFindLastResult xs := by
  induction xs with
  | nil =>
    rw [List.nil_append]
    cases h : jsFindLastResult ys with
    | error e => rfl
    | ok o => cases o <;> rfl
  | cons x xs ih =>
    have hx : jsFindLastResult (x :: (xs ++ ys)) =
        match jsFindLastResult (xs ++ ys) with
        | .error e => .error e
        | .ok (some r) => .ok (some r)
        | .ok none =>
          match isResultTaggedE x with
          | .error e => .error e
          | .ok true => .ok (some x)
          | .ok false => .ok none := rfl
    have hx2 : jsFindLastResult (x :: xs) =
        match jsFindLastResult xs with
        | .error e => .error e
        | .ok (some r) => .ok (some r)
        | .ok none =>
          match isResultTaggedE x with
          | .error e => .error e
          | .ok true => .ok (some x)
          | .ok false => .ok none := rfl
    rw [List.cons_append, hx, ih, hx2]
    cases jsFindLastResult ys with
    | error e => rfl
    | ok o =>
      cases o with
      | some y => rfl
      | none =>
        cases jsFindLastResult xs with
        | error e => rfl
        | ok o2 => cases o2 <;> rfl

theorem findLastResult_ok_none (l : List Json)
    (h : ∀ x ∈ l, isResultTaggedE x = .ok false) : jsFindLastResult l = .ok none := by
  induction l with
  | nil => rfl
  | cons x xs ih =>
    simp only [jsFindLastResult, ih (fun y hy => h y (List.mem_cons_of_mem x hy))]
    rw [h x (List.mem_cons_self x xs)]

theorem findLastResult_null_tail (ms : List Json) :
    jsFindLastResult (ms ++ [Json.null]) = .error nullTypeError := by
  induction ms with
  | nil => rfl
  | cons m ms ih =>
    have hx : jsFindLastResult (m :: (ms ++ [Json.null])) =
        match jsFindLastResult (ms ++ [Json.null]) with
        | .error e => .error e
        | .ok (some r) => .ok (some r)
        | .ok none =>
          match isResultTaggedE m with
          | .error e => .error e
          | .ok true => .ok (some m)
          | .ok false => .ok none := rfl
    rw [List.cons_append, hx, ih]

theorem isPrefixList_refl (l : List Char) : isPrefixList l l = true := by
  induction l with
  | nil => rfl
  | cons c t ih => simp [isPrefixList, ih]

theorem containsSub_suffix (n pre : List Char) : containsSub n (pre ++ n) = true := by
  induction pre with
  | nil =>
    cases n with
    | nil => rfl
    | cons c t =>
      have h : containsSub (c :: t) ([] ++ (c :: t)) =
          (isPrefixList (c :: t) (c :: t) || containsSub (c :: t) t) := rfl
      rw [h, isPrefixList_refl, Bool.true_or]
  | cons c rest ih =>
    have h : containsSub n ((c :: rest) ++ n) =
        (isPrefixList n (c :: (rest ++ n)) || containsSub n (rest ++ n)) := rfl
    rw [h, ih, Bool.or_true]

theorem executeClaude_timeout (promptPath outputFile : String) (fs : FS)
    (req : TaskRequest) (beh : ProcBehavior)
    (h : req.timeoutSeconds * 1000 < beh.runtimeMs) :
    executeClaude promptPath outputFile fs req beh =
      (.error ("Claude execution timed out after " ++
        toString req.timeoutSeconds ++ " seconds"),
       [.spawnEv, .killEv "SIGTERM"]) := by
  simp [executeClaude, h]

theorem executeClaude_nonzero (promptPath outputFile : String) (fs : FS)
    (req : TaskRequest) (beh : ProcBehavior)
    (hto : ¬ req.timeoutSeconds * 1000 < beh.runtimeMs)
    (hsp : beh.spawnError = false) (hx : beh.exitCode ≠ 0) :
    executeClaude promptPath outputFile fs req beh =
      (.error ("Claude execution failed: " ++
        (if beh.stderr ≠ "" then beh.stderr
         else "Claude process exited with code " ++ toString beh.exitCode)),
       [.spawnEv]) := by
  simp [executeClaude, hto, hsp, hx]

theorem executeClaude_clean (promptPath outputFile : String) (fs : FS)
    (req : TaskRequest) (beh : ProcBehavior)
    (hto : ¬ req.timeoutSeconds * 1000 < beh.runtimeMs)
    (hsp : beh.spawnError = false) (hx : beh.exitCode = 0) :
    executeClaude promptPath outputFile fs req beh =
      (processOutputPure beh.stdout,
       [.spawnEv, .writeFileEv outputFile beh.stdout, .interpretEv beh.stdout]) := by
  simp [executeClaude, hto, hsp, hx]

theorem executeClaude_spawn_error (promptPath outputFile : String) (fs : FS)
    (req : TaskRequest) (beh : ProcBehavior)
    (hto : ¬ req.timeoutSeconds * 1000 < beh.runtimeMs)
    (hsp : beh.spawnError = true) :
    executeClaude promptPath outputFile fs req beh =
      (.error ("Claude execution failed: " ++
        (if beh.stderr ≠ "" then beh.stderr
         else "Claude process exited with code " ++ toString (1 : Int))),
       [.spawnEv]) := by
  simp [executeClaude, hto, hsp]

theorem contains_cons_self (a : String) (l : List String) :
    (a :: l).contains a = true := by
  simp [List.contains]

theorem dirExists_cons_self (fls : List (String × String)) (d : String) (ds : List String) :
    dirExists { files := fls, dirs := d :: ds } d = true :=
  contains_cons_self d ds

theorem lookupFile_setEntry_self (fls : List (String × String)) (ds : List String)
    (p c : String) :
    lookupFile { files := setEntry fls p c, dirs := ds } p = some c := by
  simp only [lookupFile]
  rw [lookupKey_setEntry]
  simp

theorem executeTask_repo_error (tempDir taskId : String) (req0 : TaskRequest)
    (env : Env) (e : String)
    (hrepo : repoStep (joinPath tempDir taskId) taskId (resolveDefaults req0) env = .error e) :
    executeTask tempDir taskId req0 env =
      { response := failedResponse taskId env (resolveDefaults req0).metadata e,
        events := contextEvents tempDir taskId (resolveDefaults req0),
        fs := applyEvents env.fs (contextEvents tempDir taskId (resolveDefaults req0)) } := by
  simp [executeTask, hrepo]

theorem executeTask_prompt_error (tempDir taskId : String) (req0 : TaskRequest)
    (env : Env) (wd : Option String) (e : String)
    (hrepo : repoStep (joinPath tempDir taskId) taskId (resolveDefaults req0) env = .ok wd)
    (hprompt : preparePrompt
      (applyEvents env.fs (contextEvents tempDir taskId (resolveDefaults req0)))
      (joinPath (joinPath tempDir taskId) "prompt.txt") (resolveDefaults req0) = .error e) :
    executeTask tempDir taskId req0 env =
      { response := failedResponse taskId env (resolveDefaults req0).metadata e,
        events := contextEvents tempDir taskId (resolveDefaults req0),
        fs := applyEvents env.fs (contextEvents tempDir taskId (resolveDefaults req0)) } := by
  simp [executeTask, hrepo, hprompt]

theorem executeTask_run_ok (tempDir taskId : String) (req0 : TaskRequest)
    (env : Env) (wd : Option String) (pc : String) (ev1 ev2 : List Ev) (j : Json)
    (hrepo : repoStep (joinPath tempDir taskId) taskId (resolveDefaults req0) env = .ok wd)
    (hprompt : preparePrompt
      (applyEvents env.fs (contextEvents tempDir taskId (resolveDefaults req0)))
      (joinPath (joinPath tempDir taskId) "prompt.txt") (resolveDefaults req0) = .ok (pc, ev1))
    (hrun : executeClaude (joinPath (joinPath tempDir taskId) "prompt.txt")
      (joinPath (joinPath tempDir taskId) "output.json")
      (applyEvents env.fs (contextEvents tempDir taskId (resolveDefaults req0) ++ ev1))
      (resolveDefaults req0) env.behavior = (.ok j, ev2)) :
    executeTask tempDir taskId req0 env =
      { response := completedResponse taskId env (resolveDefaults req0).metadata j,
        events := contextEvents tempDir taskId (resolveDefaults req0) ++ ev1 ++ ev2,
        fs := applyEvents env.fs
          (contextEvents tempDir taskId (resolveDefaults req0) ++ ev1 ++ ev2) } := by
  simp [executeTask, hrepo, hprompt, hrun]

theorem executeTask_run_error (tempDir taskId : String) (req0 : TaskRequest)
    (env : Env) (wd : Option String) (pc : String) (ev1 ev2 : List Ev) (e : String)
    (hrepo : repoStep (joinPath tempDir taskId) taskId (resolveDefaults req0) env = .ok wd)
    (hprompt : preparePrompt
      (applyEvents env.fs (contextEvents tempDir taskId (resolveDefaults req0)))
      (joinPath (joinPath tempDir taskId) "prompt.txt") (resolveDefaults req0) = .ok (pc, ev1))
    (hrun : executeClaude (joinPath (joinPath tempDir taskId) "prompt.txt")
      (joinPath (joinPath tempDir taskId) "output.json")
      (applyEvents env.fs (contextEvents tempDir taskId (resolveDefaults req0) ++ ev1))
      (resolveDefaults req0) env.behavior = (.error e, ev2)) :
    executeTask tempDir taskId req0 env =
      { response := failedResponse taskId env (resolveDefaults req0).metadata e,
        events := contextEvents tempDir taskId (resolveDefaults req0) ++ ev1 ++ ev2,
        fs := applyEvents env.fs
          (contextEvents tempDir taskId (resolveDefaults req0) ++ ev1 ++ ev2) } := by
  simp [executeTask, hrepo, hprompt, hrun]

theorem executeTask_status (tempDir taskId : String) (req0 : TaskRequest) (env : Env) :
    (executeTask tempDir taskId req0 env).response.status = "completed" ∨
    (executeTask tempDir taskId req0 env).response.status = "failed" := by
  cases hrepo : repoStep (joinPath tempDir taskId) taskId (resolveDefaults req0) env with
  | error e =>
    rw [executeTask_repo_error tempDir taskId req0 env e hrepo]
    right; rfl
  | ok wd =>
    cases hprompt : preparePrompt
        (applyEvents env.fs (contextEvents tempDir taskId (resolveDefaults req0)))
        (joinPath (joinPath tempDir taskId) "prompt.txt") (resolveDefaults req0) with
    | error e =>
      rw [executeTask_prompt_error tempDir taskId req0 env wd e hrepo hprompt]
      right; rfl
    | ok p =>
      obtain ⟨pc, ev1⟩ := p
      rcases hrun : executeClaude (joinPath (joinPath tempDir taskId) "prompt.txt")
          (joinPath (joinPath tempDir taskId) "output.json")
          (applyEvents env.fs (contextEvents tempDir taskId (resolveDefaults req0) ++ ev1))
          (resolveDefaults req0) env.behavior with ⟨res, ev2⟩
      cases res with
      | ok j =>
        rw [executeTask_run_ok tempDir taskId req0 env wd pc ev1 ev2 j hrepo hprompt hrun]
        left; rfl
      | error e =>
        rw [executeTask_run_error tempDir taskId req0 env wd pc ev1 ev2 e hrepo hprompt hrun]
        right; rfl

theorem processOutputPure_no_result (output : String)
    (h : jsFindLastResult (decodeLines output) = .ok none) :
    processOutputPure output =
      .error (if containsSub "Error:".data output.data then
          "Claude execution error: " ++ output
        else "No result message found in Claude output") := by
  by_cases hc : containsSub "Error:".data output.data <;>
    simp [processOutputPure, h, hc]

theorem processOutputPure_scan_error (output e : String)
    (h : jsFindLastResult (decodeLines output) = .error e) :
    processOutputPure output = .error e := by
  unfold processOutputPure
  rw [h]

theorem preparePrompt_ok_shape (fs : FS) (pp : String) (req : TaskRequest)
    (pc : String) (ev1 : List Ev)
    (h : preparePrompt fs pp req = .ok (pc, ev1)) :
    ev1 = [.writeFileEv pp pc] := by
  unfold preparePrompt at h
  cases h1 : promptStep1 req with
  | error e => simp only [h1] at h; cases h
  | ok pc1 =>
    simp only [h1] at h
    cases h2 : promptStep2 fs req pc1 with
    | error e => simp only [h2] at h; cases h
    | ok pc2 =>
      simp only [h2] at h
      split at h
      · cases h
      · simp only [Except.ok.injEq, Prod.mk.injEq] at h
        rw [← h.2, h.1]

theorem getTaskResult_ne_none (tempDir taskId : String) (fs : FS) (bt mt nt : Nat)
    (h : dirExists fs (joinPath tempDir taskId) = true) :
    getTaskResult tempDir taskId fs bt mt nt ≠ none := by
  cases h2 : lookupFile fs (joinPath (joinPath tempDir taskId) "output.json") with
  | none => simp [getTaskResult, h, h2]
  | some oc =>
    cases h3 : jsFindLastResult (decodeLines oc) with
    | error e => simp [getTaskResult, h, h2, h3]
    | ok o => cases o <;> simp [getTaskResult, h, h2, h3]

/-! # Claims -/

/-- Claim C8: a submission arriving when the in-flight count is at or above
`maxConcurrentTasks` is rejected with the admission-control error and the
state is unchanged (no task is created or queued); admitted submissions,
cancellation and settlement keep the in-flight index at or below the
ceiling, so it never exceeds it. -/
theorem admission_control_ceiling
    (st : WebState) (taskId : String) (req : TaskRequest) (env : Env) (now : Nat) :
    (st.maxConcurrentTasks ≤ st.runningTasks.length →
      postTask st taskId req env now =
        (.limitReached st.runningTasks.length st.maxConcurrentTasks, st))
    ∧ (st.runningTasks.length ≤ st.maxConcurrentTasks →
      (postTask st taskId req env now).2.runningTasks.length ≤ st.maxConcurrentTasks)
    ∧ ((cancelTask st taskId).2.runningTasks.length ≤ st.runningTasks.length)
    ∧ ((settleTask st taskId).runningTasks.length ≤ st.runningTasks.length) := by
  refine ⟨fun h => by simp [postTask, h], fun h => ?_, ?_, ?_⟩
  · by_cases hc : st.maxConcurrentTasks ≤ st.runningTasks.length
    · simpa [postTask, hc] using h
    · have hle := length_setEntry_le st.runningTasks taskId
        (executeTaskAsync st.tempDir taskId req env)
      simp only [postTask, if_neg hc]
      exact le_trans hle (by omega)
  · cases hl : lookupKey st.runningTasks taskId with
    | none => simp [cancelTask, hl]
    | some v => simp [cancelTask, hl, length_removeKey_le]
  · simpa [settleTask] using length_removeKey_le st.runningTasks taskId

/-- Claim C8 witness: with the ceiling 1 already reached, a further
submission is rejected and the index stays within the ceiling. -/
theorem admission_control_ceiling_witness :
    postTask wStFull "b" wReqAny wEnvAny 0 =
      (.limitReached wStFull.runningTasks.length wStFull.maxConcurrentTasks, wStFull)
    ∧ (postTask wStFull "b" wReqAny wEnvAny 0).2.runningTasks.length ≤
        wStFull.maxConcurrentTasks := by
  have h := admission_control_ceiling wStFull "b" wReqAny wEnvAny 0
  exact ⟨h.1 (by decide), h.2.1 (by decide)⟩

/-- Claim C10: cancelling a tracked task deletes only its entry from the
in-flight index — the filesystem, the configuration and every other task's
entry are untouched — and once the task's directory exists on disk, a later
GET for the cancelled identifier is answered from the on-disk
reconstruction rather than with NotFound. -/
theorem cancel_frame_and_disk_get
    (st : WebState) (tid : String) (v : TaskResponse) (bt mt nt : Nat)
    (htracked : lookupKey st.runningTasks tid = some v) :
    (cancelTask st tid).1 = .cancelled tid
    ∧ ((cancelTask st tid).2.fs = st.fs ∧ (cancelTask st tid).2.tempDir = st.tempDir
        ∧ (cancelTask st tid).2.maxConcurrentTasks = st.maxConcurrentTasks)
    ∧ (∀ k, k ≠ tid →
        lookupKey (cancelTask st tid).2.runningTasks k = lookupKey st.runningTasks k)
    ∧ ((st.runningTasks.map Prod.fst).Nodup →
        lookupKey (cancelTask st tid).2.runningTasks tid = none)
    ∧ (dirExists st.fs (joinPath st.tempDir tid) = true →
        (webGetTask (cancelTask st tid).2 tid bt mt nt).isNotFound = false) := by
  refine ⟨by simp [cancelTask, htracked], ⟨?_, ?_, ?_⟩, fun k hk => ?_, fun hnd => ?_, fun hd => ?_⟩
  · simp [cancelTask, htracked]
  · simp [cancelTask, htracked]
  · simp [cancelTask, htracked]
  · simp only [cancelTask, htracked]
    exact lookupKey_removeKey_ne st.runningTasks tid k hk
  · simp only [cancelTask, htracked]
    exact lookupKey_removeKey_self st.runningTasks tid hnd
  · simp only [cancelTask, htracked, webGetTask]
    cases hl : lookupKey (removeKey st.runningTasks tid) tid with
    | some ev => simp [GetOutcome.isNotFound]
    | none =>
      cases hg : getTaskResult st.tempDir tid st.fs bt mt nt with
      | some r => simp [GetOutcome.isNotFound]
      | none => exact absurd hg (getTaskResult_ne_none st.tempDir tid st.fs bt mt nt hd)

/-- Claim C10 witness: a concrete tracked task whose directory exists on
disk — cancellation removes only its entry and a later GET still answers
from disk. -/
theorem cancel_frame_and_disk_get_witness :
    (cancelTask wStTracked "t").1 = .cancelled "t"
    ∧ (cancelTask wStTracked "t").2.fs = wStTracked.fs
    ∧ lookupKey (cancelTask wStTracked "t").2.runningTasks "x" =
        lookupKey wStTracked.runningTasks "x"
    ∧ lookupKey (cancelTask wStTracked "t").2.runningTasks "t" = none
    ∧ (webGetTask (cancelTask wStTracked "t").2 "t" 0 0 0).isNotFound = false := by
  have h := cancel_frame_and_disk_get wStTracked "t" wRespT 0 0 0 rfl
  exact ⟨h.1, h.2.1.1, h.2.2.1 "x" (by decide), h.2.2.2.1 (by decide), h.2.2.2.2 (by decide)⟩

/-- Claim C7 counterexample: in the OpenAPI server, a GET issued while a
task is still tracked awaits the task promise and answers with the settled
record — here `failed`, not `pending` — although submission itself did
return a pending response.  The claim that such a GET "returns the task
with status `pending`" is therefore false on this code. -/
theorem get_before_settlement_counterexample :
    (postTask cxStEmpty "t7" cxReqPending cxEnvPending 0).1 =
      .accepted { taskId := "t7", status := "pending", createdAt := 0, metadata := none }
    ∧ getStatus (webGetTask (postTask cxStEmpty "t7" cxReqPending cxEnvPending 0).2 "t7" 0 0 0) =
        some "failed"
    ∧ some "failed" ≠ some "pending" := by
  exact ⟨rfl, rfl, by decide⟩

/-- Claim C7 (amended): `submit` immediately returns a pending Task
Response carrying the task identifier, and the development server's GET
returns that pending record before settlement; the OpenAPI server's GET,
however, awaits the task promise, so a GET issued before settlement
answers with the eventual terminal record, whose status is `completed` or
`failed`, never `pending`. -/
theorem submit_pending_get_semantics
    (st : WebState) (tid : String) (req : TaskRequest) (env : Env) (now bt mt nt : Nat)
    (hadm : st.runningTasks.length < st.maxConcurrentTasks) :
    (postTask st tid req env now).1 =
      .accepted { taskId := tid, status := "pending", createdAt := now, metadata := req.metadata }
    ∧ webGetTask (postTask st tid req env now).2 tid bt mt nt =
        .ok (executeTaskAsync st.tempDir tid req env)
    ∧ ((executeTaskAsync st.tempDir tid req env).status = "completed" ∨
        (executeTaskAsync st.tempDir tid req env).status = "failed")
    ∧ (∀ tasks : List (String × TaskResponse),
        devGetTask (devPostTask tasks tid req now).2 tid =
          .ok { taskId := tid, status := "pending", createdAt := now, metadata := req.metadata }) := by
  have hc : ¬ st.maxConcurrentTasks ≤ st.runningTasks.length := by omega
  refine ⟨by simp [postTask, hc], ?_, executeTask_status st.tempDir tid req env, fun tasks => ?_⟩
  · simp only [postTask, if_neg hc, webGetTask]
    rw [lookupKey_setEntry st.runningTasks tid tid (executeTaskAsync st.tempDir tid req env)]
    simp
  · simp only [devPostTask, devGetTask]
    rw [lookupKey_setEntry tasks tid tid
      { taskId := tid, status := "pending", createdAt := now, metadata := req.metadata }]
    simp

/-- Claim C1 counterexample: a run exceeding its 1-second timeout is
SIGTERM-killed, but the stored Task Response has status `failed` — not
`timeout` (no code path ever assigns the declared `timeout` status). -/
theorem timeout_status_counterexample :
    (executeTask "temp" "t1" cxReqTimeout cxEnvTimeout).response.status = "failed"
    ∧ (executeTask "temp" "t1" cxReqTimeout cxEnvTimeout).response.status ≠ "timeout"
    ∧ Ev.killEv "SIGTERM" ∈ (executeTask "temp" "t1" cxReqTimeout cxEnvTimeout).events := by
  exact ⟨rfl, by decide, by decide⟩

/-- Claim C1 (amended): for every task whose subprocess would outlive the
configured timeout, the timeout race SIGTERM-kills the subprocess and the
final stored Task Response has status `failed` — the declared `timeout`
status is never assigned — with the error message naming the configured
timeout duration. -/
theorem timeout_kills_and_stores_failed
    (tempDir taskId : String) (req0 : TaskRequest) (env : Env)
    (wd : Option String) (pc : String) (ev1 : List Ev)
    (hrepo : repoStep (joinPath tempDir taskId) taskId (resolveDefaults req0) env = .ok wd)
    (hprompt : preparePrompt
      (applyEvents env.fs (contextEvents tempDir taskId (resolveDefaults req0)))
      (joinPath (joinPath tempDir taskId) "prompt.txt") (resolveDefaults req0) = .ok (pc, ev1))
    (htime : (resolveDefaults req0).timeoutSeconds * 1000 < env.behavior.runtimeMs) :
    (executeTask tempDir taskId req0 env).response.status = "failed"
    ∧ (executeTask tempDir taskId req0 env).response.error =
        some ("Claude execution timed out after " ++
          toString (resolveDefaults req0).timeoutSeconds ++ " seconds")
    ∧ Ev.killEv "SIGTERM" ∈ (executeTask tempDir taskId req0 env).events := by
  have hrun := executeClaude_timeout (joinPath (joinPath tempDir taskId) "prompt.txt")
    (joinPath (joinPath tempDir taskId) "output.json")
    (applyEvents env.fs (contextEvents tempDir taskId (resolveDefaults req0) ++ ev1))
    (resolveDefaults req0) env.behavior htime
  rw [executeTask_run_error tempDir taskId req0 env wd pc ev1 _ _ hrepo hprompt hrun]
  refine ⟨rfl, rfl, ?_⟩
  simp [List.mem_append]

/-- Claim C1 witness: a 2-second timeout against a 5-second process. -/
theorem timeout_kills_and_stores_failed_witness :
    (executeTask "temp" "tw" wReqTimeout wEnvTimeout).response.status = "failed"
    ∧ (executeTask "temp" "tw" wReqTimeout wEnvTimeout).response.error =
        some ("Claude execution timed out after " ++
          toString (resolveDefaults wReqTimeout).timeoutSeconds ++ " seconds")
    ∧ Ev.killEv "SIGTERM" ∈ (executeTask "temp" "tw" wReqTimeout wEnvTimeout).events := by
  exact timeout_kills_and_stores_failed "temp" "tw" wReqTimeout wEnvTimeout none "q"
    [.writeFileEv (joinPath (joinPath "temp" "tw") "prompt.txt") "q"] rfl rfl (by decide)

/-- Claim C4 counterexample: the stored metrics of a completed run take
`durationMs` from the wall clock (5000 ms here), not from the last result
line's `duration_ms` field (999). -/
theorem metrics_duration_counterexample :
    ((executeTask "temp" "t4" cxReqRoundtrip cxEnvRoundtrip).response.executionMetrics.map
        (fun m => m.durationMs)) = some (some (Json.num "5000"))
    ∧ jsFindLastResult (decodeLines cxEnvRoundtrip.behavior.stdout) = .ok (some wResultJson)
    ∧ wResultJson.getField "duration_ms" = some (Json.num "999")
    ∧ (some (Json.num "5000") : Option Json) ≠ some (Json.num "999") := by
  refine ⟨rfl, rfl, rfl, ?_⟩
  intro h
  injection h with h1
  injection h1 with h2
  exact absurd h2 (by decide)

/-- Claim C4 (amended): for a clean exit whose end-to-start result scan
succeeds with a last result-tagged line (in particular, the scan reaches
no decoded `null` line first — that would throw and fail the task), the
stored metrics copy turn count, cost and permission denials from that
line (with `|| 0` defaulting) and the stored result is that whole line,
but `durationMs` is the task's wall-clock duration, not the line's
`duration_ms` field. -/
theorem metrics_from_last_line_except_duration
    (tempDir taskId : String) (req0 : TaskRequest) (env : Env)
    (wd : Option String) (pc : String) (ev1 : List Ev) (j : Json)
    (hrepo : repoStep (joinPath tempDir taskId) taskId (resolveDefaults req0) env = .ok wd)
    (hprompt : preparePrompt
      (applyEvents env.fs (contextEvents tempDir taskId (resolveDefaults req0)))
      (joinPath (joinPath tempDir taskId) "prompt.txt") (resolveDefaults req0) = .ok (pc, ev1))
    (hto : ¬ (resolveDefaults req0).timeoutSeconds * 1000 < env.behavior.runtimeMs)
    (hsp : env.behavior.spawnError = false)
    (hx : env.behavior.exitCode = 0)
    (hres : jsFindLastResult (decodeLines env.behavior.stdout) = .ok (some j)) :
    (executeTask tempDir taskId req0 env).response.status = "completed"
    ∧ (executeTask tempDir taskId req0 env).response.result = some j
    ∧ (executeTask tempDir taskId req0 env).response.executionMetrics =
        some { durationMs := some (.num (toString (env.completionTime - env.startTime)))
               numTurns := some (jsOrU (j.getField "num_turns") (.num "0"))
               totalCostUsd := some (jsOrU (j.getField "total_cost_usd") (.num "0"))
               permissionDenials :=
                 some (jsOrU (j.getField "permission_denials") (.num "0")) } := by
  have hpo : processOutputPure env.behavior.stdout = .ok j := by
    unfold processOutputPure
    rw [hres]
  have hrun : executeClaude (joinPath (joinPath tempDir taskId) "prompt.txt")
      (joinPath (joinPath tempDir taskId) "output.json")
      (applyEvents env.fs (contextEvents tempDir taskId (resolveDefaults req0) ++ ev1))
      (resolveDefaults req0) env.behavior =
      (.ok j, [.spawnEv,
        .writeFileEv (joinPath (joinPath tempDir taskId) "output.json") env.behavior.stdout,
        .interpretEv env.behavior.stdout]) := by
    rw [executeClaude_clean _ _ _ _ _ hto hsp hx, hpo]
  rw [executeTask_run_ok tempDir taskId req0 env wd pc ev1 _ j hrepo hprompt hrun]
  exact ⟨rfl, rfl, rfl⟩

/-- Claim C4 witness: the wall clock spans 1000–6000 ms while the result
line reports 999 ms, 1 turn and cost 0.001. -/
theorem metrics_from_last_line_witness :
    (executeTask "temp" "w4" cxReqRoundtrip cxEnvRoundtrip).response.status = "completed"
    ∧ (executeTask "temp" "w4" cxReqRoundtrip cxEnvRoundtrip).response.result = some wResultJson
    ∧ (executeTask "temp" "w4" cxReqRoundtrip cxEnvRoundtrip).response.executionMetrics =
        some { durationMs := some (.num (toString
                 (cxEnvRoundtrip.completionTime - cxEnvRoundtrip.startTime)))
               numTurns := some (jsOrU (wResultJson.getField "num_turns") (.num "0"))
               totalCostUsd := some (jsOrU (wResultJson.getField "total_cost_usd") (.num "0"))
               permissionDenials :=
                 some (jsOrU (wResultJson.getField "permission_denials") (.num "0")) } := by
  exact metrics_from_last_line_except_duration "temp" "w4" cxReqRoundtrip cxEnvRoundtrip
    none "add" [.writeFileEv (joinPath (joinPath "temp" "w4") "prompt.txt") "add"] wResultJson
    rfl rfl (by decide) rfl rfl rfl

/-- Claim C5 counterexample: with both an inline prompt "A" and a prompt
file containing "B", the effective prompt is the FILE content "B" — the
prompt file overrides the inline text, contradicting the claimed
inline-text-first resolution order. -/
theorem prompt_order_counterexample :
    preparePrompt cxFsPrompt "p/prompt.txt" cxReqPrompt =
      .ok ("B", [.writeFileEv "p/prompt.txt" "B"])
    ∧ "B" ≠ "A" :=
  ⟨rfl, by decide⟩

/-- Claim C5 (amended): the effective prompt is resolved with a TRUTHY
(non-empty-string) prompt file taking precedence over the inline text,
while an empty-string `promptFile` is falsy in JS and treated as absent:
(1) a truthy prompt file must exist and be non-empty and its content is
used even when an inline prompt was given; (2) with a falsy prompt file
(absent or ""), a non-blank inline prompt is used; (3) with a falsy
prompt file and no inline prompt, the category template's default prompt
is used when the category is known; (4)–(6) a blank resolution, a missing
truthy prompt file and an empty truthy prompt file each fail; (7) a
prompt-resolution failure settles the task as `failed` before any
subprocess is spawned. -/
theorem prompt_resolution_file_overrides :
    (∀ (fs : FS) (pp : String) (req : TaskRequest) (pf c : String),
      req.promptFile = some pf → pf ≠ "" →
      lookupFile fs pf = some c → jsTrim c.data ≠ [] →
      preparePrompt fs pp req = .ok (c, [.writeFileEv pp c]))
    ∧ (∀ (fs : FS) (pp : String) (req : TaskRequest) (p : String),
      (req.promptFile = none ∨ req.promptFile = some "") →
      req.prompt = some p → jsTrim p.data ≠ [] →
      preparePrompt fs pp req = .ok (p, [.writeFileEv pp p]))
    ∧ (∀ (fs : FS) (pp : String) (req : TaskRequest) (t : TaskTemplate),
      (req.promptFile = none ∨ req.promptFile = some "") →
      (req.prompt = none ∨ req.prompt = some "") →
      getTaskTemplate req.taskType = some t → jsTrim t.defaultPrompt.data ≠ [] →
      preparePrompt fs pp req = .ok (t.defaultPrompt, [.writeFileEv pp t.defaultPrompt]))
    ∧ (∀ (fs : FS) (pp : String) (req : TaskRequest) (t : TaskTemplate),
      (req.promptFile = none ∨ req.promptFile = some "") →
      (req.prompt = none ∨ req.prompt = some "") →
      getTaskTemplate req.taskType = some t → jsTrim t.defaultPrompt.data = [] →
      preparePrompt fs pp req = .error "Prompt is empty. Please provide a non-empty prompt.")
    ∧ (∀ (fs : FS) (pp : String) (req : TaskRequest) (pf : String),
      req.promptFile = some pf → pf ≠ "" → lookupFile fs pf = none →
      preparePrompt fs pp req = .error ("Prompt file '" ++ pf ++ "' does not exist"))
    ∧ (∀ (fs : FS) (pp : String) (req : TaskRequest) (pf : String),
      req.promptFile = some pf → pf ≠ "" → lookupFile fs pf = some "" →
      preparePrompt fs pp req = .error "Prompt file is empty")
    ∧ (∀ (tempDir taskId : String) (req0 : TaskRequest) (env : Env)
        (wd : Option String) (e : String),
      repoStep (joinPath tempDir taskId) taskId (resolveDefaults req0) env = .ok wd →
      preparePrompt (applyEvents env.fs (contextEvents tempDir taskId (resolveDefaults req0)))
        (joinPath (joinPath tempDir taskId) "prompt.txt") (resolveDefaults req0) = .error e →
      (executeTask tempDir taskId req0 env).response.status = "failed"
      ∧ (executeTask tempDir taskId req0 env).response.error = some e
      ∧ Ev.spawnEv ∉ (executeTask tempDir taskId req0 env).events) := by
  refine ⟨fun fs pp req pf c hpf hpf0 hfile htrim => ?_,
    fun fs pp req p hpf hp htrim => ?_,
    fun fs pp req t hpf hp ht htrim => ?_,
    fun fs pp req t hpf hp ht htrim => ?_,
    fun fs pp req pf hpf hpf0 hfile => ?_,
    fun fs pp req pf hpf hpf0 hfile => ?_,
    fun tempDir taskId req0 env wd e hrepo hprompt => ?_⟩
  · have hc : c ≠ "" := by
      intro h
      subst h
      exact htrim rfl
    simp [preparePrompt, promptStep1, promptStep2, jsFalsyStr, hpf, hpf0, hfile, hc, htrim]
  · have hc : p ≠ "" := by
      intro h
      subst h
      exact htrim rfl
    rcases hpf with hpf | hpf <;>
      simp [preparePrompt, promptStep1, promptStep2, jsFalsyStr, hpf, hp, hc, htrim]
  · have hc : t.defaultPrompt ≠ "" := by
      intro h
      rw [h] at htrim
      exact htrim rfl
    rcases hpf with hpf | hpf <;> rcases hp with hp | hp <;>
      simp [preparePrompt, promptStep1, promptStep2, jsFalsyStr, hpf, hp, ht, hc, htrim]
  · rcases hpf with hpf | hpf <;> rcases hp with hp | hp <;>
      simp [preparePrompt, promptStep1, promptStep2, jsFalsyStr, hpf, hp, ht, htrim]
  · simp [preparePrompt, promptStep1, promptStep2, jsFalsyStr, hpf, hpf0, hfile]
  · simp [preparePrompt, promptStep1, promptStep2, jsFalsyStr, hpf, hpf0, hfile]
  · rw [executeTask_prompt_error tempDir taskId req0 env wd e hrepo hprompt]
    refine ⟨rfl, rfl, ?_⟩
    simp [contextEvents]

/-- Claim C5 witness: the file content "W" wins over the inline prompt;
an empty-string `promptFile` is treated as absent and the inline prompt
is used; an inline prompt also resolves with no prompt file; a failing
resolution (empty `custom` default) settles as `failed` with no spawn. -/
theorem prompt_resolution_file_overrides_witness :
    preparePrompt wFsPrompt "d/prompt.txt" wReqFilePrompt =
      .ok ("W", [.writeFileEv "d/prompt.txt" "W"])
    ∧ preparePrompt wFsPrompt "d/prompt.txt" wReqEmptyFilePrompt =
        .ok ("inline2", [.writeFileEv "d/prompt.txt" "inline2"])
    ∧ preparePrompt wFsPrompt "d/prompt.txt" wReqInlinePrompt =
        .ok ("fix it", [.writeFileEv "d/prompt.txt" "fix it"])
    ∧ (executeTask "temp" "w5" wReqEmptyPrompt wEnvPlain).response.status = "failed"
    ∧ (executeTask "temp" "w5" wReqEmptyPrompt wEnvPlain).response.error =
        some "Prompt is empty. Please provide a non-empty prompt."
    ∧ Ev.spawnEv ∉ (executeTask "temp" "w5" wReqEmptyPrompt wEnvPlain).events := by
  have h := prompt_resolution_file_overrides
  have h1 := h.1 wFsPrompt "d/prompt.txt" wReqFilePrompt "wf" "W" rfl (by decide) rfl (by decide)
  have h2 := h.2.1 wFsPrompt "d/prompt.txt" wReqEmptyFilePrompt "inline2"
    (Or.inr rfl) rfl (by decide)
  have h3 := h.2.1 wFsPrompt "d/prompt.txt" wReqInlinePrompt "fix it"
    (Or.inl rfl) rfl (by decide)
  have h7 := h.2.2.2.2.2.2 "temp" "w5" wReqEmptyPrompt wEnvPlain none
    "Prompt is empty. Please provide a non-empty prompt." rfl rfl
  exact ⟨h1, h2, h3, h7.1, h7.2.1, h7.2.2⟩

/-- Claim C6 counterexample: a run that exits non-zero never hands the
captured stdout to the Output Interpreter and never writes the
output-capture file — contradicting "for every execution, whatever the
outcome". -/
theorem output_discarded_counterexample :
    ((executeTask "temp" "t6" cxReqNonzero cxEnvNonzero).events.all
      (fun e => match e with | .interpretEv _ => false | _ => true)) = true
    ∧ lookupFile (executeTask "temp" "t6" cxReqNonzero cxEnvNonzero).fs
        (joinPath (joinPath "temp" "t6") "output.json") = none := by
  exact ⟨rfl, rfl⟩

/-- Claim C6 (amended): only on a clean exit is the full captured stdout
durably written to the output-capture file and then handed, in full, to
the Output Interpreter — the write immediately precedes the
interpretation; on timeout or non-zero exit, nothing is written to the
output-capture file and the interpreter is never invoked. -/
theorem output_persisted_only_on_clean_exit
    (tempDir taskId : String) (req0 : TaskRequest) (env : Env)
    (wd : Option String) (pc : String)
    (hrepo : repoStep (joinPath tempDir taskId) taskId (resolveDefaults req0) env = .ok wd)
    (hprompt : preparePrompt
      (applyEvents env.fs (contextEvents tempDir taskId (resolveDefaults req0)))
      (joinPath (joinPath tempDir taskId) "prompt.txt") (resolveDefaults req0) =
      .ok (pc, [.writeFileEv (joinPath (joinPath tempDir taskId) "prompt.txt") pc])) :
    (env.behavior.spawnError = false → env.behavior.exitCode = 0 →
      ¬ (resolveDefaults req0).timeoutSeconds * 1000 < env.behavior.runtimeMs →
      (executeTask tempDir taskId req0 env).events =
        contextEvents tempDir taskId (resolveDefaults req0)
          ++ [.writeFileEv (joinPath (joinPath tempDir taskId) "prompt.txt") pc]
          ++ [.spawnEv,
              .writeFileEv (joinPath (joinPath tempDir taskId) "output.json")
                env.behavior.stdout,
              .interpretEv env.behavior.stdout])
    ∧ ((resolveDefaults req0).timeoutSeconds * 1000 < env.behavior.runtimeMs →
      ∀ c, Ev.interpretEv c ∉ (executeTask tempDir taskId req0 env).events
        ∧ Ev.writeFileEv (joinPath (joinPath tempDir taskId) "output.json") c ∉
            (executeTask tempDir taskId req0 env).events)
    ∧ (env.behavior.spawnError = false → env.behavior.exitCode ≠ 0 →
      ¬ (resolveDefaults req0).timeoutSeconds * 1000 < env.behavior.runtimeMs →
      ∀ c, Ev.interpretEv c ∉ (executeTask tempDir taskId req0 env).events
        ∧ Ev.writeFileEv (joinPath (joinPath tempDir taskId) "output.json") c ∉
            (executeTask tempDir taskId req0 env).events) := by
  have hne1 : joinPath (joinPath tempDir taskId) "output.json" ≠
      joinPath (joinPath tempDir taskId) "request.json" :=
    string_append_ne (joinPath tempDir taskId ++ "/") _ _ (by decide)
  have hne2 : joinPath (joinPath tempDir taskId) "output.json" ≠
      joinPath (joinPath tempDir taskId) "prompt.txt" :=
    string_append_ne (joinPath tempDir taskId ++ "/") _ _ (by decide)
  refine ⟨fun hsp hx hto => ?_, fun htime c => ?_, fun hsp hx hto c => ?_⟩
  · cases hpo : processOutputPure env.behavior.stdout with
    | ok j =>
      have hrun : executeClaude (joinPath (joinPath tempDir taskId) "prompt.txt")
          (joinPath (joinPath tempDir taskId) "output.json")
          (applyEvents env.fs (contextEvents tempDir taskId (resolveDefaults req0)
            ++ [.writeFileEv (joinPath (joinPath tempDir taskId) "prompt.txt") pc]))
          (resolveDefaults req0) env.behavior =
          (.ok j, [.spawnEv,
            .writeFileEv (joinPath (joinPath tempDir taskId) "output.json")
              env.behavior.stdout,
            .interpretEv env.behavior.stdout]) := by
        rw [executeClaude_clean _ _ _ _ _ hto hsp hx, hpo]
      rw [executeTask_run_ok tempDir taskId req0 env wd pc _ _ j hrepo hprompt hrun]
    | error e =>
      have hrun : executeClaude (joinPath (joinPath tempDir taskId) "prompt.txt")
          (joinPath (joinPath tempDir taskId) "output.json")
          (applyEvents env.fs (contextEvents tempDir taskId (resolveDefaults req0)
            ++ [.writeFileEv (joinPath (joinPath tempDir taskId) "prompt.txt") pc]))
          (resolveDefaults req0) env.behavior =
          (.error e, [.spawnEv,
            .writeFileEv (joinPath (joinPath tempDir taskId) "output.json")
              env.behavior.stdout,
            .interpretEv env.behavior.stdout]) := by
        rw [executeClaude_clean _ _ _ _ _ hto hsp hx, hpo]
      rw [executeTask_run_error tempDir taskId req0 env wd pc _ _ e hrepo hprompt hrun]
  · have hrun := executeClaude_timeout (joinPath (joinPath tempDir taskId) "prompt.txt")
      (joinPath (joinPath tempDir taskId) "output.json")
      (applyEvents env.fs (contextEvents tempDir taskId (resolveDefaults req0)
        ++ [.writeFileEv (joinPath (joinPath tempDir taskId) "prompt.txt") pc]))
      (resolveDefaults req0) env.behavior htime
    rw [executeTask_run_error tempDir taskId req0 env wd pc _ _ _ hrepo hprompt hrun]
    constructor
    · simp [contextEvents]
    · simp [contextEvents, hne1, hne2]
  · have hrun := executeClaude_nonzero (joinPath (joinPath tempDir taskId) "prompt.txt")
      (joinPath (joinPath tempDir taskId) "output.json")
      (applyEvents env.fs (contextEvents tempDir taskId (resolveDefaults req0)
        ++ [.writeFileEv (joinPath (joinPath tempDir taskId) "prompt.txt") pc]))
      (resolveDefaults req0) env.behavior hto hsp hx
    rw [executeTask_run_error tempDir taskId req0 env wd pc _ _ _ hrepo hprompt hrun]
    constructor
    · simp [contextEvents]
    · simp [contextEvents, hne1, hne2]

/-- Claim C6 witness: a non-zero exit at a concrete input — the captured
stdout is neither written to the output file nor interpreted. -/
theorem output_persisted_only_on_clean_exit_witness :
    Ev.interpretEv "partial diagnostics" ∉
      (executeTask "t6c" "x" cxReqNonzero cxEnvNonzero).events
    ∧ Ev.writeFileEv (joinPath (joinPath "t6c" "x") "output.json") "partial diagnostics" ∉
        (executeTask "t6c" "x" cxReqNonzero cxEnvNonzero).events := by
  have h := output_persisted_only_on_clean_exit "t6c" "x" cxReqNonzero cxEnvNonzero
    none "x" rfl rfl
  exact h.2.2 rfl (by decide) (by decide) "partial diagnostics"

/-- Claim C2 counterexample: a completed task stores the whole result
message in memory, while the reconstruction from disk stores the
message's inner `result` field — the two Task Responses have the same
status but different results, falsifying the round-trip claim. -/
theorem roundtrip_result_counterexample :
    (executeTask "temp" "t2" cxReqRoundtrip cxEnvRoundtrip).response.status = "completed"
    ∧ ((getTaskResult "temp" "t2"
          (executeTask "temp" "t2" cxReqRoundtrip cxEnvRoundtrip).fs 0 0 0).map
        TaskResponse.status) = some "completed"
    ∧ ((getTaskResult "temp" "t2"
          (executeTask "temp" "t2" cxReqRoundtrip cxEnvRoundtrip).fs 0 0 0).map
        TaskResponse.result) = some (some (Json.str "10"))
    ∧ (executeTask "temp" "t2" cxReqRoundtrip cxEnvRoundtrip).response.result =
        some wResultJson
    ∧ (some (some (Json.str "10")) : Option (Option Json)) ≠ some (some wResultJson) := by
  refine ⟨rfl, rfl, rfl, rfl, ?_⟩
  simp [wResultJson]

/-- Claim C2 (amended): for a task directory with no pre-existing output
capture, reading the persisted artifacts back (as `getTaskResult` does
after a simulated restart) reconstructs a Task Response with the SAME
status as the in-memory one for every outcome; but for a completed task
the reconstructed `result` is the inner `result` field of the stored
result message, not the message itself. -/
theorem roundtrip_status_and_inner_result
    (tempDir taskId : String) (req0 : TaskRequest) (env : Env) (bt mt nt : Nat)
    (hfresh : lookupFile env.fs (joinPath (joinPath tempDir taskId) "output.json") = none) :
    ((getTaskResult tempDir taskId (executeTask tempDir taskId req0 env).fs bt mt nt).map
        TaskResponse.status) = some (executeTask tempDir taskId req0 env).response.status
    ∧ (∀ j, (executeTask tempDir taskId req0 env).response.result = some j →
        ((getTaskResult tempDir taskId (executeTask tempDir taskId req0 env).fs bt mt nt).map
          TaskResponse.result) = some (j.getField "result")) := by
  have hq : joinPath (joinPath tempDir taskId) "output.json" ≠
      joinPath (joinPath tempDir taskId) "request.json" :=
    string_append_ne (joinPath tempDir taskId ++ "/") _ _ (by decide)
  have hp : joinPath (joinPath tempDir taskId) "output.json" ≠
      joinPath (joinPath tempDir taskId) "prompt.txt" :=
    string_append_ne (joinPath tempDir taskId ++ "/") _ _ (by decide)
  cases hrepo : repoStep (joinPath tempDir taskId) taskId (resolveDefaults req0) env with
  | error e =>
    rw [executeTask_repo_error tempDir taskId req0 env e hrepo]
    have hfsA : applyEvents env.fs (contextEvents tempDir taskId (resolveDefaults req0)) =
        { files := setEntry env.fs.files (joinPath (joinPath tempDir taskId) "request.json")
            (serializeJson (requestToJson (resolveDefaults req0))),
          dirs := joinPath tempDir taskId :: env.fs.dirs } := rfl
    have hout : lookupFile (applyEvents env.fs
        (contextEvents tempDir taskId (resolveDefaults req0)))
        (joinPath (joinPath tempDir taskId) "output.json") = none := by
      rw [hfsA]
      simp only [lookupFile]
      rw [lookupKey_setEntry, if_neg hq]
      exact hfresh
    have hdir : dirExists (applyEvents env.fs
        (contextEvents tempDir taskId (resolveDefaults req0)))
        (joinPath tempDir taskId) = true := by
      rw [hfsA]
      exact contains_cons_self _ _
    constructor
    · simp [getTaskResult, hdir, hout, failedResponse]
    · intro j hj
      simp [failedResponse] at hj
  | ok wd =>
    cases hprompt : preparePrompt
        (applyEvents env.fs (contextEvents tempDir taskId (resolveDefaults req0)))
        (joinPath (joinPath tempDir taskId) "prompt.txt") (resolveDefaults req0) with
    | error e =>
      rw [executeTask_prompt_error tempDir taskId req0 env wd e hrepo hprompt]
      have hfsA : applyEvents env.fs (contextEvents tempDir taskId (resolveDefaults req0)) =
          { files := setEntry env.fs.files (joinPath (joinPath tempDir taskId) "request.json")
              (serializeJson (requestToJson (resolveDefaults req0))),
            dirs := joinPath tempDir taskId :: env.fs.dirs } := rfl
      have hout : lookupFile (applyEvents env.fs
          (contextEvents tempDir taskId (resolveDefaults req0)))
          (joinPath (joinPath tempDir taskId) "output.json") = none := by
        rw [hfsA]
        simp only [lookupFile]
        rw [lookupKey_setEntry, if_neg hq]
        exact hfresh
      have hdir : dirExists (applyEvents env.fs
          (contextEvents tempDir taskId (resolveDefaults req0)))
          (joinPath tempDir taskId) = true := by
        rw [hfsA]
        exact contains_cons_self _ _
      constructor
      · simp [getTaskResult, hdir, hout, failedResponse]
      · intro j hj
        simp [failedResponse] at hj
    | ok p =>
      obtain ⟨pc, ev1⟩ := p
      have hev1 := preparePrompt_ok_shape _ _ _ _ _ hprompt
      subst hev1
      -- filesystem facts for runs that do not reach `processOutput`
      have hfsT : applyEvents env.fs (contextEvents tempDir taskId (resolveDefaults req0)
          ++ [.writeFileEv (joinPath (joinPath tempDir taskId) "prompt.txt") pc]
          ++ [.spawnEv, .killEv "SIGTERM"]) =
          applyEvents env.fs (contextEvents tempDir taskId (resolveDefaults req0)
            ++ [.writeFileEv (joinPath (joinPath tempDir taskId) "prompt.txt") pc]) := rfl
      have hfsS : applyEvents env.fs (contextEvents tempDir taskId (resolveDefaults req0)
          ++ [.writeFileEv (joinPath (joinPath tempDir taskId) "prompt.txt") pc]
          ++ [.spawnEv]) =
          applyEvents env.fs (contextEvents tempDir taskId (resolveDefaults req0)
            ++ [.writeFileEv (joinPath (joinPath tempDir taskId) "prompt.txt") pc]) := rfl
      have houtB : lookupFile (applyEvents env.fs
          (contextEvents tempDir taskId (resolveDefaults req0)
            ++ [.writeFileEv (joinPath (joinPath tempDir taskId) "prompt.txt") pc]))
          (joinPath (joinPath tempDir taskId) "output.json") = none := by
        simp only [lookupFile, applyEvents, contextEvents, List.cons_append, List.nil_append,
          List.foldl_cons, List.foldl_nil, applyEv]
        rw [lookupKey_setEntry, if_neg hp, lookupKey_setEntry, if_neg hq]
        exact hfresh
      have hdirB : dirExists (applyEvents env.fs
          (contextEvents tempDir taskId (resolveDefaults req0)
            ++ [.writeFileEv (joinPath (joinPath tempDir taskId) "prompt.txt") pc]))
          (joinPath tempDir taskId) = true := by
        simp only [dirExists, applyEvents, contextEvents, List.cons_append, List.nil_append,
          List.foldl_cons, List.foldl_nil, applyEv]
        exact contains_cons_self _ _
      by_cases hto : (resolveDefaults req0).timeoutSeconds * 1000 < env.behavior.runtimeMs
      · -- timeout race fires: no output capture on disk
        have hrun := executeClaude_timeout (joinPath (joinPath tempDir taskId) "prompt.txt")
          (joinPath (joinPath tempDir taskId) "output.json")
          (applyEvents env.fs (contextEvents tempDir taskId (resolveDefaults req0)
            ++ [.writeFileEv (joinPath (joinPath tempDir taskId) "prompt.txt") pc]))
          (resolveDefaults req0) env.behavior hto
        rw [executeTask_run_error tempDir taskId req0 env wd pc _ _ _ hrepo hprompt hrun]
        rw [hfsT]
        constructor
        · simp [getTaskResult, hdirB, houtB, failedResponse]
        · intro j hj
          simp [failedResponse] at hj
      · cases hspc : env.behavior.spawnError with
        | true =>
          have hrun := executeClaude_spawn_error (joinPath (joinPath tempDir taskId) "prompt.txt")
            (joinPath (joinPath tempDir taskId) "output.json")
            (applyEvents env.fs (contextEvents tempDir taskId (resolveDefaults req0)
              ++ [.writeFileEv (joinPath (joinPath tempDir taskId) "prompt.txt") pc]))
            (resolveDefaults req0) env.behavior hto hspc
          rw [executeTask_run_error tempDir taskId req0 env wd pc _ _ _ hrepo hprompt hrun]
          rw [hfsS]
          constructor
          · simp [getTaskResult, hdirB, houtB, failedResponse]
          · intro j hj
            simp [failedResponse] at hj
        | false =>
          by_cases hx0 : env.behavior.exitCode = 0
          · -- clean exit: the full stdout is persisted, then interpreted
            have hfsC : applyEvents env.fs (contextEvents tempDir taskId (resolveDefaults req0)
                ++ [.writeFileEv (joinPath (joinPath tempDir taskId) "prompt.txt") pc]
                ++ [.spawnEv,
                    .writeFileEv (joinPath (joinPath tempDir taskId) "output.json")
                      env.behavior.stdout,
                    .interpretEv env.behavior.stdout]) =
                { files := setEntry (setEntry (setEntry env.fs.files
                    (joinPath (joinPath tempDir taskId) "request.json")
                    (serializeJson (requestToJson (resolveDefaults req0))))
                    (joinPath (joinPath tempDir taskId) "prompt.txt") pc)
                    (joinPath (joinPath tempDir taskId) "output.json") env.behavior.stdout,
                  dirs := joinPath tempDir taskId :: env.fs.dirs } := rfl
            cases hres : jsFindLastResult (decodeLines env.behavior.stdout) with
            | error e =>
              have hpo := processOutputPure_scan_error env.behavior.stdout e hres
              have hrun : executeClaude (joinPath (joinPath tempDir taskId) "prompt.txt")
                  (joinPath (joinPath tempDir taskId) "output.json")
                  (applyEvents env.fs (contextEvents tempDir taskId (resolveDefaults req0)
                    ++ [.writeFileEv (joinPath (joinPath tempDir taskId) "prompt.txt") pc]))
                  (resolveDefaults req0) env.behavior =
                  (.error e,
                   [.spawnEv,
                    .writeFileEv (joinPath (joinPath tempDir taskId) "output.json")
                      env.behavior.stdout,
                    .interpretEv env.behavior.stdout]) := by
                rw [executeClaude_clean _ _ _ _ _ hto hspc hx0, hpo]
              rw [executeTask_run_error tempDir taskId req0 env wd pc _ _ _ hrepo hprompt hrun]
              rw [hfsC]
              constructor
              · simp [getTaskResult, dirExists_cons_self, lookupFile_setEntry_self, hres,
                  failedResponse]
              · intro j hj
                simp [failedResponse] at hj
            | ok o =>
              cases o with
              | some j =>
                have hpo : processOutputPure env.behavior.stdout = .ok j := by
                  unfold processOutputPure
                  rw [hres]
                have hrun : executeClaude (joinPath (joinPath tempDir taskId) "prompt.txt")
                    (joinPath (joinPath tempDir taskId) "output.json")
                    (applyEvents env.fs (contextEvents tempDir taskId (resolveDefaults req0)
                      ++ [.writeFileEv (joinPath (joinPath tempDir taskId) "prompt.txt") pc]))
                    (resolveDefaults req0) env.behavior =
                    (.ok j, [.spawnEv,
                      .writeFileEv (joinPath (joinPath tempDir taskId) "output.json")
                        env.behavior.stdout,
                      .interpretEv env.behavior.stdout]) := by
                  rw [executeClaude_clean _ _ _ _ _ hto hspc hx0, hpo]
                rw [executeTask_run_ok tempDir taskId req0 env wd pc _ _ j hrepo hprompt hrun]
                rw [hfsC]
                constructor
                · simp [getTaskResult, dirExists_cons_self, lookupFile_setEntry_self, hres,
                    completedResponse]
                · intro j0 hj0
                  simp only [completedResponse, Option.some.injEq] at hj0
                  subst hj0
                  simp [getTaskResult, dirExists_cons_self, lookupFile_setEntry_self, hres]
              | none =>
                have hpo := processOutputPure_no_result env.behavior.stdout hres
                have hrun : executeClaude (joinPath (joinPath tempDir taskId) "prompt.txt")
                    (joinPath (joinPath tempDir taskId) "output.json")
                    (applyEvents env.fs (contextEvents tempDir taskId (resolveDefaults req0)
                      ++ [.writeFileEv (joinPath (joinPath tempDir taskId) "prompt.txt") pc]))
                    (resolveDefaults req0) env.behavior =
                    (.error (if containsSub "Error:".data env.behavior.stdout.data then
                        "Claude execution error: " ++ env.behavior.stdout
                      else "No result message found in Claude output"),
                     [.spawnEv,
                      .writeFileEv (joinPath (joinPath tempDir taskId) "output.json")
                        env.behavior.stdout,
                      .interpretEv env.behavior.stdout]) := by
                  rw [executeClaude_clean _ _ _ _ _ hto hspc hx0, hpo]
                rw [executeTask_run_error tempDir taskId req0 env wd pc _ _ _ hrepo hprompt hrun]
                rw [hfsC]
                constructor
                · simp [getTaskResult, dirExists_cons_self, lookupFile_setEntry_self, hres,
                    failedResponse]
                · intro j hj
                  simp [failedResponse] at hj
          · -- non-zero exit: no output capture on disk
            have hrun := executeClaude_nonzero (joinPath (joinPath tempDir taskId) "prompt.txt")
              (joinPath (joinPath tempDir taskId) "output.json")
              (applyEvents env.fs (contextEvents tempDir taskId (resolveDefaults req0)
                ++ [.writeFileEv (joinPath (joinPath tempDir taskId) "prompt.txt") pc]))
              (resolveDefaults req0) env.behavior hto hspc hx0
            rw [executeTask_run_error tempDir taskId req0 env wd pc _ _ _ hrepo hprompt hrun]
            rw [hfsS]
            constructor
            · simp [getTaskResult, hdirB, houtB, failedResponse]
            · intro j hj
              simp [failedResponse] at hj

/-- Claim C2 witness: a concrete completed run — the statuses agree after
reconstruction and the reconstructed result is the inner `result` field
of the in-memory result message. -/
theorem roundtrip_status_and_inner_result_witness :
    ((getTaskResult "temp" "w2"
        (executeTask "temp" "w2" cxReqRoundtrip cxEnvRoundtrip).fs 0 0 0).map
      TaskResponse.status) =
      some (executeTask "temp" "w2" cxReqRoundtrip cxEnvRoundtrip).response.status
    ∧ ((getTaskResult "temp" "w2"
        (executeTask "temp" "w2" cxReqRoundtrip cxEnvRoundtrip).fs 0 0 0).map
      TaskResponse.result) = some (wResultJson.getField "result") := by
  have h := roundtrip_status_and_inner_result "temp" "w2" cxReqRoundtrip cxEnvRoundtrip
    0 0 0 rfl
  exact ⟨h.1, h.2 wResultJson rfl⟩

/-- Claim C3 counterexample: a raw output whose decoded sequence holds a
result-tagged value followed by a decoded `null` line — the last
result-tagged decoded value is present, yet interpretation does not
return it: the `findLast` callback's property access on `null` throws a
`TypeError`, so the scan aborts and the task fails.  The claim that the
last result-tagged decoded value is returned is therefore false of the
program. -/
theorem interpreter_null_scan_counterexample :
    decodeLines cxNullOut = [wResultJson, Json.null]
    ∧ isResultTagged wResultJson = true
    ∧ processOutputPure cxNullOut = .error nullTypeError := by
  exact ⟨rfl, rfl, rfl⟩

/-- Claim C3 (amended): the interpreter splits the raw stdout into lines,
decodes each non-blank line independently, silently discards undecodable
lines, and scans the decoded values from the END for the last
result-tagged one: (1) `processOutput` succeeds with `j` exactly when
that scan returns `j`; (2) inserting lines that fail to decode anywhere
never changes the scan's outcome — interleaved non-JSON lines never
prevent a present result from being found; (3) a result-tagged line
followed only by lines decoding to non-null non-result values is
selected (last-wins); (4) but a decoded `null` line at the end aborts the
scan with the `TypeError` of a property access on `null` — failing the
task — regardless of any earlier result line. -/
theorem interpreter_last_result_robust :
    (∀ output : String, ∀ j : Json,
      processOutputPure output = .ok j ↔
        interpretLines (splitNl (jsTrim output.data)) = .ok (some j))
    ∧ (∀ ls1 ls2 ls3 : List (List Char),
        (∀ l ∈ ls2, jsonParseChars l = none) →
        interpretLines (ls1 ++ ls2 ++ ls3) = interpretLines (ls1 ++ ls3))
    ∧ (∀ ms ns : List (List Char), ∀ r : List Char, ∀ j : Json,
        lineDecode r = some j → isResultTaggedE j = .ok true →
        (∀ l ∈ ns, ∀ j', lineDecode l = some j' → isResultTaggedE j' = .ok false) →
        interpretLines (ms ++ r :: ns) = .ok (some j))
    ∧ (∀ ms : List Json, jsFindLastResult (ms ++ [Json.null]) = .error nullTypeError) := by
  refine ⟨fun output j => ?_, fun ls1 ls2 ls3 h => ?_,
    fun ms ns r j hdec htag hns => ?_, fun ms => findLastResult_null_tail ms⟩
  · unfold processOutputPure interpretLines decodeLines
    cases h : jsFindLastResult ((splitNl (jsTrim output.data)).filterMap lineDecode) with
    | error e => simp
    | ok o =>
      cases o with
      | some r => simp
      | none =>
        by_cases he : containsSub "Error:".data output.data <;> simp [he]
  · unfold interpretLines
    have h2 : ls2.filterMap lineDecode = [] := by
      rw [List.filterMap_eq_nil_iff]
      intro l hl
      unfold lineDecode
      by_cases hb : jsTrim l = []
      · simp [hb]
      · simp [hb, h l hl]
    simp [List.filterMap_append, h2]
  · unfold interpretLines
    have hfm : (ms ++ r :: ns).filterMap lineDecode =
        ms.filterMap lineDecode ++ j :: ns.filterMap lineDecode := by
      simp [List.filterMap_append, List.filterMap_cons, hdec]
    rw [hfm, findLastResult_append]
    have hnone : jsFindLastResult (ns.filterMap lineDecode) = .ok none := by
      apply findLastResult_ok_none
      intro x hx
      obtain ⟨l, hl, hld⟩ := List.mem_filterMap.mp hx
      exact hns l hl x hld
    have hcons : jsFindLastResult (j :: ns.filterMap lineDecode) = .ok (some j) := by
      simp only [jsFindLastResult]
      rw [hnone, htag]
    rw [hcons]

/-- Claim C3 witness: a noisy capture with a banner line, a non-result
event and interleaved junk still yields the result; junk insertion,
last-wins and the null-tail abort evaluated at concrete inputs. -/
theorem interpreter_last_result_robust_witness :
    processOutputPure wNoisyOut = .ok wResultJson
    ∧ interpretLines ([['a']] ++ [['b'], ['c']] ++ [resultLine.data]) =
        interpretLines ([['a']] ++ [resultLine.data])
    ∧ interpretLines ([['n']] ++ resultLine.data :: [['z']]) = .ok (some wResultJson)
    ∧ jsFindLastResult ([wResultJson] ++ [Json.null]) = .error nullTypeError := by
  have h := interpreter_last_result_robust
  refine ⟨(h.1 wNoisyOut wResultJson).mpr rfl,
    h.2.1 [['a']] [['b'], ['c']] [resultLine.data] ?_,
    h.2.2.1 [['n']] [['z']] resultLine.data wResultJson rfl rfl ?_,
    h.2.2.2 [wResultJson]⟩
  · intro l hl
    simp only [List.mem_cons, List.not_mem_nil, or_false] at hl
    rcases hl with h1 | h1 <;> subst h1 <;> rfl
  · intro l hl j' hld
    simp only [List.mem_cons, List.not_mem_nil, or_false] at hl
    subst hl
    rw [show lineDecode ['z'] = none from rfl] at hld
    cases hld

/-- Claim C9 counterexample: for the raw output `null`, the decoded
sequence contains no result-tagged event, yet the failure is neither the
verbatim-surfaced raw text nor the generic no-result message: the scan's
property access on the decoded `null` throws, and that `TypeError` is
what interpretation fails with.  The claimed error dichotomy is
therefore false of the program. -/
theorem no_result_typeerror_counterexample :
    decodeLines "null" = [Json.null]
    ∧ containsSub "Error:".data "null".data = false
    ∧ processOutputPure "null" = .error nullTypeError
    ∧ nullTypeError ≠ "No result message found in Claude output" := by
  exact ⟨rfl, rfl, rfl, by decide⟩

/-- Claim C9 (amended): when the end-to-start scan completes and finds no
result-tagged event, interpretation fails with the raw text carried
verbatim in the error when the literal `Error:` marker occurs in it, and
with the generic no-result message otherwise; when the scan instead
reaches a decoded `null`, interpretation fails with the `TypeError` of
that property access.  In every case the task settles as a `failed` Task
Response holding that error (`executeTask` returns the failed record, it
does not raise). -/
theorem no_result_error_stored :
    (∀ output : String,
      jsFindLastResult (decodeLines output) = .ok none →
      processOutputPure output =
        .error (if containsSub "Error:".data output.data then
            "Claude execution error: " ++ output
          else "No result message found in Claude output")
      ∧ (containsSub "Error:".data output.data = true →
          containsSub output.data ("Claude execution error: " ++ output).data = true))
    ∧ (∀ (output e : String),
        jsFindLastResult (decodeLines output) = .error e →
        processOutputPure output = .error e)
    ∧ (∀ (tempDir taskId : String) (req0 : TaskRequest) (env : Env)
        (wd : Option String) (pc : String) (ev1 : List Ev),
        repoStep (joinPath tempDir taskId) taskId (resolveDefaults req0) env = .ok wd →
        preparePrompt
          (applyEvents env.fs (contextEvents tempDir taskId (resolveDefaults req0)))
          (joinPath (joinPath tempDir taskId) "prompt.txt") (resolveDefaults req0) =
          .ok (pc, ev1) →
        ¬ (resolveDefaults req0).timeoutSeconds * 1000 < env.behavior.runtimeMs →
        env.behavior.spawnError = false →
        env.behavior.exitCode = 0 →
        ((jsFindLastResult (decodeLines env.behavior.stdout) = .ok none →
          (executeTask tempDir taskId req0 env).response.status = "failed"
          ∧ (executeTask tempDir taskId req0 env).response.error =
              some (if containsSub "Error:".data env.behavior.stdout.data then
                  "Claude execution error: " ++ env.behavior.stdout
                else "No result message found in Claude output"))
         ∧ (∀ e, jsFindLastResult (decodeLines env.behavior.stdout) = .error e →
            (executeTask tempDir taskId req0 env).response.status = "failed"
            ∧ (executeTask tempDir taskId req0 env).response.error = some e))) := by
  refine ⟨fun output h => ⟨processOutputPure_no_result output h, fun hc => ?_⟩,
    fun output e h => processOutputPure_scan_error output e h,
    fun tempDir taskId req0 env wd pc ev1 hrepo hprompt hto hsp hx => ⟨fun hnores => ?_,
      fun e herr2 => ?_⟩⟩
  · have hd : ("Claude execution error: " ++ output).data =
        "Claude execution error: ".data ++ output.data := by
      simp [String.data_append]
    rw [hd]
    exact containsSub_suffix output.data "Claude execution error: ".data
  · have hrun : executeClaude (joinPath (joinPath tempDir taskId) "prompt.txt")
        (joinPath (joinPath tempDir taskId) "output.json")
        (applyEvents env.fs (contextEvents tempDir taskId (resolveDefaults req0) ++ ev1))
        (resolveDefaults req0) env.behavior =
        (.error (if containsSub "Error:".data env.behavior.stdout.data then
            "Claude execution error: " ++ env.behavior.stdout
          else "No result message found in Claude output"),
         [.spawnEv,
          .writeFileEv (joinPath (joinPath tempDir taskId) "output.json") env.behavior.stdout,
          .interpretEv env.behavior.stdout]) := by
      rw [executeClaude_clean _ _ _ _ _ hto hsp hx,
        processOutputPure_no_result env.behavior.stdout hnores]
    rw [executeTask_run_error tempDir taskId req0 env wd pc ev1 _ _ hrepo hprompt hrun]
    exact ⟨rfl, rfl⟩
  · have hrun : executeClaude (joinPath (joinPath tempDir taskId) "prompt.txt")
        (joinPath (joinPath tempDir taskId) "output.json")
        (applyEvents env.fs (contextEvents tempDir taskId (resolveDefaults req0) ++ ev1))
        (resolveDefaults req0) env.behavior =
        (.error e,
         [.spawnEv,
          .writeFileEv (joinPath (joinPath tempDir taskId) "output.json") env.behavior.stdout,
          .interpretEv env.behavior.stdout]) := by
      rw [executeClaude_clean _ _ _ _ _ hto hsp hx,
        processOutputPure_scan_error env.behavior.stdout e herr2]
    rw [executeTask_run_error tempDir taskId req0 env wd pc ev1 _ _ hrepo hprompt hrun]
    exact ⟨rfl, rfl⟩

/-- Claim C9 witness: an output with no result event but containing the
`Error:` marker surfaces the raw text in the stored failed record, and a
bare `null` output stores the scan's `TypeError`. -/
theorem no_result_error_stored_witness :
    processOutputPure "oops Error: exploded" =
      .error (if containsSub "Error:".data "oops Error: exploded".data then
          "Claude execution error: " ++ "oops Error: exploded"
        else "No result message found in Claude output")
    ∧ containsSub "oops Error: exploded".data
        ("Claude execution error: " ++ "oops Error: exploded").data = true
    ∧ processOutputPure "null" = .error nullTypeError
    ∧ (executeTask "temp" "t9" wReqNoRes wEnvNoRes).response.status = "failed"
    ∧ (executeTask "temp" "t9" wReqNoRes wEnvNoRes).response.error =
        some (if containsSub "Error:".data wEnvNoRes.behavior.stdout.data then
            "Claude execution error: " ++ wEnvNoRes.behavior.stdout
          else "No result message found in Claude output")
    ∧ (executeTask "temp" "t9n" wReqNull wEnvNull).response.status = "failed"
    ∧ (executeTask "temp" "t9n" wReqNull wEnvNull).response.error = some nullTypeError := by
  have h := no_result_error_stored
  have h1 := h.1 "oops Error: exploded" rfl
  have hb := h.2.1 "null" nullTypeError rfl
  have h2 := h.2.2 "temp" "t9" wReqNoRes wEnvNoRes none "y"
    [.writeFileEv (joinPath (joinPath "temp" "t9") "prompt.txt") "y"]
    rfl rfl (by decide) rfl rfl
  have h3 := h.2.2 "temp" "t9n" wReqNull wEnvNull none "z"
    [.writeFileEv (joinPath (joinPath "temp" "t9n") "prompt.txt") "z"]
    rfl rfl (by decide) rfl rfl
  exact ⟨h1.1, h1.2 rfl, hb, (h2.1 rfl).1, (h2.1 rfl).2,
    (h3.2 nullTypeError rfl).1, (h3.2 nullTypeError rfl).2⟩

/-- Claim C7 witness: a concrete admitted submission — the pending 202
response, the awaited GET, and the development server's pending GET. -/
theorem submit_pending_get_semantics_witness :
    (postTask wStRoom "w7" cxReqRoundtrip cxEnvRoundtrip 5 ).1 =
      .accepted { taskId := "w7", status := "pending", createdAt := 5, metadata := none }
    ∧ webGetTask (postTask wStRoom "w7" cxReqRoundtrip cxEnvRoundtrip 5 ).2 "w7" 0 0 0 =
        .ok (executeTaskAsync wStRoom.tempDir "w7" cxReqRoundtrip cxEnvRoundtrip)
    ∧ ((executeTaskAsync wStRoom.tempDir "w7" cxReqRoundtrip cxEnvRoundtrip).status = "completed" ∨
        (executeTaskAsync wStRoom.tempDir "w7" cxReqRoundtrip cxEnvRoundtrip).status = "failed")
    ∧ devGetTask (devPostTask [] "w7" cxReqRoundtrip 5 ).2 "w7" =
        .ok { taskId := "w7", status := "pending", createdAt := 5, metadata := none } := by
  have h := submit_pending_get_semantics wStRoom "w7" cxReqRoundtrip cxEnvRoundtrip 5 0 0 0
    (by decide)
  exact ⟨h.1, h.2.1, h.2.2.1, h.2.2.2 []⟩

end CCP
